import Mathlib

/-!
A shallow embedding of the Beacon maritime-SAR simulation core
(`src/domain/environment/generator.ts`, `src/App.tsx`,
`src/domain/coverage/planner.ts`, `src/components/canvas/voronoi.ts`).

Modelling conventions, used throughout:

* JS `number` is modelled by `ℚ`; JS `Number.POSITIVE_INFINITY`, which the
  source stores explicitly in `returnMinutesRequired`, is modelled by the
  two-constructor type `JNum`.
* The transcendental library functions the source calls (`Math.hypot`,
  `Math.cos`, `Math.sin`, `Math.atan2`, `Math.pow`, `Math.PI`) have no exact
  rational counterpart; they are kept abstract as the fields of a `JsMath`
  parameter, and theorems assume exactly the facts about them they need
  (e.g. `cos θ ^ 2 + sin θ ^ 2 = 1`).  A comparison of the form
  `Math.hypot dx dy ≤ r` made under the guard `r > 0` is translated to the
  equivalent squared comparison `dx^2 + dy^2 ≤ r^2`, which is exact over `ℚ`.
* `seedrandom(s)` produces a deterministic stream of draws in `[0,1)` that is
  a pure function of the seed string `s`; it is modelled by a parameter
  `rng : String → ℕ → ℚ` giving the n-th draw of the stream seeded with `s`.
  `Math.random()` draws are likewise a parameter `ℕ → ℚ`.
* `new Date().toISOString()` and `Date.now()` are modelled as explicit
  clock parameters (`now`), since the source reads the ambient clock.
-/

namespace Beacon

/-- Abstract model of the `Math` functions used by the source (see header). -/
structure JsMath where
  hypot : ℚ → ℚ → ℚ
  cos : ℚ → ℚ
  sin : ℚ → ℚ
  atan2 : ℚ → ℚ → ℚ
  pow : ℚ → ℚ → ℚ
  pi : ℚ

/-- Model of `seedrandom`: the n-th draw of the stream seeded with a string. -/
def Rng : Type := String → ℕ → ℚ

/-- generator.ts: `const clamp = (value, min, max) => Math.min(max, Math.max(min, value))`. -/
def clamp (value lo hi : ℚ) : ℚ := min hi (max lo value)

/-- generator.ts: `const lerp = (a, b, t) => a + (b - a) * t`. -/
def lerp (a b t : ℚ) : ℚ := a + (b - a) * t

/-- JS `Math.round` (half-up, ties toward +∞): `⌊x + 1/2⌋`. -/
def jsRound (x : ℚ) : ℤ := ⌊x + 1/2⌋

/-- JS `Math.floor`. -/
def jsFloor (x : ℚ) : ℤ := ⌊x⌋

/-- JS array indexing `arr[i]`: `undefined` (here `none`) when out of range. -/
def jsListGet {α : Type} (l : List α) (i : ℤ) : Option α :=
  if 0 ≤ i then l.get? i.toNat else none

/-- Model of JS number-to-string conversion for an integer value. -/
def intRepr (n : ℤ) : String := toString n

/-- Model of `Number.prototype.toFixed(1)` (exact digits are irrelevant to the
claims; only functionality and injectivity at concrete points are used). -/
def toFixed1 (q : ℚ) : String :=
  let n : ℤ := jsRound (q * 10)
  let a : ℕ := n.natAbs
  (if n < 0 then "-" else "") ++ toString (a / 10) ++ "." ++ toString (a % 10)

/-- `{x, y}` in meters. -/
structure Vec2 where
  x : ℚ
  y : ℚ
deriving DecidableEq, Repr

structure SectorBounds where
  origin : Vec2
  widthMeters : ℚ
  heightMeters : ℚ
deriving DecidableEq, Repr

structure EnvironmentalConditions where
  seaState : ℚ
  windKts : ℚ
  visibilityKm : ℚ
  surfaceTempC : ℚ
  description : Option String
deriving DecidableEq, Repr

structure WaterSettings where
  tileSize : ℚ
  noiseScale : ℚ
  detailScale : ℚ
  baseColor : ℚ × ℚ × ℚ
  highlightColor : ℚ × ℚ × ℚ
  textureStrength : ℚ
deriving DecidableEq, Repr

structure MaritimeSector where
  id : String
  name : String
  seed : String
  bounds : SectorBounds
  conditions : EnvironmentalConditions
  water : WaterSettings
  createdAt : String
deriving DecidableEq, Repr

inductive AnomalyType where
  | personInWater
  | lifeboat
  | debrisField
  | falsePositive
deriving DecidableEq, Repr

/-- The JSON tag of an anomaly type. -/
def AnomalyType.tag : AnomalyType → String
  | .personInWater => "person-in-water"
  | .lifeboat => "lifeboat"
  | .debrisField => "debris-field"
  | .falsePositive => "false-positive"

/-- generator.ts `anomalyTypeOrder`. -/
def anomalyTypeOrder : List AnomalyType :=
  [.personInWater, .lifeboat, .debrisField, .falsePositive]

structure AnomalyConfig where
  count : ℚ
  detectionRadiusMeters : ℚ
deriving DecidableEq, Repr

/-- `Record<AnomalyType, AnomalyConfig>` as a structure with one field per key. -/
structure AnomalySettings where
  personInWater : AnomalyConfig
  lifeboat : AnomalyConfig
  debrisField : AnomalyConfig
  falsePositive : AnomalyConfig
deriving DecidableEq, Repr

def AnomalySettings.get (s : AnomalySettings) : AnomalyType → AnomalyConfig
  | .personInWater => s.personInWater
  | .lifeboat => s.lifeboat
  | .debrisField => s.debrisField
  | .falsePositive => s.falsePositive

structure AnomalyInstance where
  id : String
  anomalyType : AnomalyType
  position : Vec2
  detected : Bool
  detectionRadiusMeters : ℚ
  note : Option String
deriving DecidableEq, Repr

structure AnomalySet where
  config : AnomalySettings
  items : List AnomalyInstance
deriving DecidableEq, Repr

structure ScenarioMetadata where
  createdAt : String
  labels : Option (List String)
  notes : Option String
deriving DecidableEq, Repr

structure MaritimeScenario where
  version : ℚ
  name : String
  seed : String
  sector : MaritimeSector
  anomalies : AnomalySet
  metadata : Option ScenarioMetadata
deriving DecidableEq, Repr

/-- config/constants.ts: `droneHubExclusionRadiusMeters = 150`. -/
def droneHubExclusionRadiusMeters : ℚ := 150

/-- config/constants.ts: `droneHubReturnReserveMinutes = 5`. -/
def droneHubReturnReserveMinutes : ℚ := 5

def centerOfBounds (bounds : SectorBounds) : Vec2 :=
  ⟨bounds.origin.x + bounds.widthMeters / 2, bounds.origin.y + bounds.heightMeters / 2⟩

def hubRadiusForBounds (bounds : SectorBounds) : ℚ :=
  let maxRadius := min bounds.widthMeters bounds.heightMeters / 2
  let safeMargin := max (maxRadius - 10) 0
  max 0 (min droneHubExclusionRadiusMeters safeMargin)

structure Hub where
  position : Vec2
  radius : ℚ
deriving DecidableEq, Repr

def droneHubFromBounds (bounds : SectorBounds) : Hub :=
  ⟨centerOfBounds bounds, hubRadiusForBounds bounds⟩

/-- generator.ts `isInsideHubSafeZone`.  The source tests
`hub.radius > 0 && Math.hypot(dx, dy) <= hub.radius`; since both sides of the
second comparison are nonnegative there, it is translated to the exact squared
comparison. -/
def isInsideHubSafeZone (point : Vec2) (hub : Hub) : Bool :=
  decide (0 < hub.radius) &&
    decide ((point.x - hub.position.x) ^ 2 + (point.y - hub.position.y) ^ 2 ≤ hub.radius ^ 2)

/-- The rejection loop of `createAnomalyPositionSampler`, with explicit fuel
(the source uses 32 attempts) and an explicit index into the random stream;
each attempt consumes two draws.  Fuel 0 is the fallback placement just
outside the hub radius at a random angle (one draw), clamped to bounds. -/
def samplePositionAux (M : JsMath) (bounds : SectorBounds) (hub : Hub)
    (stream : ℕ → ℚ) : ℕ → ℕ → Vec2 × ℕ
  | 0, i =>
    let angle := stream i * M.pi * 2
    let radius := if 0 < hub.radius then hub.radius + 5 else 0
    let cand : Vec2 := ⟨hub.position.x + M.cos angle * radius, hub.position.y + M.sin angle * radius⟩
    (⟨clamp cand.x bounds.origin.x (bounds.origin.x + bounds.widthMeters),
      clamp cand.y bounds.origin.y (bounds.origin.y + bounds.heightMeters)⟩, i + 1)
  | fuel + 1, i =>
    let x := bounds.origin.x + stream i * bounds.widthMeters
    let y := bounds.origin.y + stream (i + 1) * bounds.heightMeters
    let candidate : Vec2 := ⟨x, y⟩
    if isInsideHubSafeZone candidate hub then
      samplePositionAux M bounds hub stream fuel (i + 2)
    else
      (candidate, i + 2)

/-- One call of the sampler returned by `createAnomalyPositionSampler`,
threading the random-stream index. -/
def samplePosition (M : JsMath) (bounds : SectorBounds) (hub : Hub)
    (stream : ℕ → ℚ) (i : ℕ) : Vec2 × ℕ :=
  samplePositionAux M bounds hub stream 32 i

/-- generator.ts `defaultWaterSettings`. -/
def defaultWaterSettings : WaterSettings :=
  { tileSize := 256
    noiseScale := 0.015
    detailScale := 0.07
    baseColor := (16, 60, 96)
    highlightColor := (38, 114, 176)
    textureStrength := 0.65 }

/-- generator.ts `defaultAnomalyConfig`. -/
def defaultAnomalyConfig : AnomalySettings :=
  { personInWater := ⟨3, 250⟩
    lifeboat := ⟨1, 400⟩
    debrisField := ⟨2, 300⟩
    falsePositive := ⟨1, 180⟩ }

/-- `Partial<AnomalyConfig>`: each field may be absent. -/
structure AnomalyConfigPatch where
  count : Option ℚ
  detectionRadiusMeters : Option ℚ
deriving DecidableEq, Repr

/-- `Partial<AnomalySettings>`. -/
structure AnomalySettingsPatch where
  personInWater : Option AnomalyConfigPatch
  lifeboat : Option AnomalyConfigPatch
  debrisField : Option AnomalyConfigPatch
  falsePositive : Option AnomalyConfigPatch
deriving DecidableEq, Repr

def AnomalySettingsPatch.get (s : AnomalySettingsPatch) : AnomalyType → Option AnomalyConfigPatch
  | .personInWater => s.personInWater
  | .lifeboat => s.lifeboat
  | .debrisField => s.debrisField
  | .falsePositive => s.falsePositive

def normalizeOneConfig (incoming : Option AnomalyConfigPatch) (dflt : AnomalyConfig) : AnomalyConfig :=
  ⟨((max 0 (jsRound ((incoming.bind (·.count)).getD dflt.count)) : ℤ) : ℚ),
   ((max 10 (jsRound ((incoming.bind (·.detectionRadiusMeters)).getD
      dflt.detectionRadiusMeters)) : ℤ) : ℚ)⟩

/-- generator.ts `normalizeAnomalyConfig`. -/
def normalizeAnomalyConfig (config : Option AnomalySettingsPatch) : AnomalySettings :=
  { personInWater :=
      normalizeOneConfig (config.bind (·.get .personInWater)) (defaultAnomalyConfig.get .personInWater)
    lifeboat :=
      normalizeOneConfig (config.bind (·.get .lifeboat)) (defaultAnomalyConfig.get .lifeboat)
    debrisField :=
      normalizeOneConfig (config.bind (·.get .debrisField)) (defaultAnomalyConfig.get .debrisField)
    falsePositive :=
      normalizeOneConfig (config.bind (·.get .falsePositive)) (defaultAnomalyConfig.get .falsePositive) }

/-- generator.ts `totalAnomalyCount`. -/
def totalAnomalyCount (config : AnomalySettings) : ℚ :=
  (anomalyTypeOrder.map (fun t => (config.get t).count)).sum

/-- The inner `for` loop of `generateAnomalies` for one type: produce `count`
items, threading the random-stream index; ids are `` `${type}-${i + 1}` ``. -/
def generateItemsForType (M : JsMath) (bounds : SectorBounds) (hub : Hub)
    (stream : ℕ → ℚ) (t : AnomalyType) (radius : ℚ) :
    ℕ → ℕ → ℕ → List AnomalyInstance × ℕ
  | 0, _, i => ([], i)
  | n + 1, k, i =>
    let sampled := samplePosition M bounds hub stream i
    let item : AnomalyInstance :=
      { id := t.tag ++ "-" ++ intRepr (k + 1)
        anomalyType := t
        position := sampled.1
        detected := false
        detectionRadiusMeters := radius
        note := none }
    let rest := generateItemsForType M bounds hub stream t radius n (k + 1) sampled.2
    (item :: rest.1, rest.2)

/-- generator.ts `generateAnomalies`: the anomaly stream is seeded with
`` `${seed}-anomalies` ``; counts are the (integral, nonnegative) normalized
counts, so the JS `for (i < count)` loop runs `⌊count⌋.toNat` times. -/
def generateAnomalies (M : JsMath) (rng : Rng) (sector : MaritimeSector)
    (seed : String) (config : AnomalySettings) : List AnomalyInstance :=
  let stream := rng (seed ++ "-anomalies")
  let hub := droneHubFromBounds sector.bounds
  (anomalyTypeOrder.foldl
    (fun (acc : List AnomalyInstance × ℕ) t =>
      let cfg := config.get t
      let gen :=
        generateItemsForType M sector.bounds hub stream t cfg.detectionRadiusMeters
          (jsFloor cfg.count).toNat 0 acc.2
      (acc.1 ++ gen.1, gen.2))
    ([], 0)).1

structure BoundsKm where
  width : ℚ
  height : ℚ
deriving DecidableEq, Repr

/-- generator.ts `GeneratorParams`. -/
structure GeneratorParams where
  seed : String
  boundsKm : BoundsKm
  origin : Option Vec2
  name : Option String
  notes : Option String
  anomalyConfig : Option AnomalySettingsPatch
deriving Repr

/-- The fixed phrase list sampled for `conditions.description`. -/
def conditionDescriptions : List String :=
  [ "Calm swell with light breeze"
  , "Gentle chop; steady breeze"
  , "Moderate seas with scattered whitecaps"
  , "Rising swell and gusty wind"
  , "Low visibility haze over the water"
  , "Dense fog pockets and cool air" ]

/-- generator.ts `generateSector`.  `rng seed n` is the n-th draw of
`seedrandom(seed)`, consumed in the source's call order (sea state, wind,
visibility, temperature, description pick, texture strength, noise scale,
detail scale); `now` models `new Date().toISOString()`. -/
def generateSector (M : JsMath) (rng : Rng) (params : GeneratorParams)
    (now : String) : MaritimeScenario :=
  let s := rng params.seed
  let widthMeters := max 100 (params.boundsKm.width * 1000)
  let heightMeters := max 100 (params.boundsKm.height * 1000)
  let originPoint : Vec2 := params.origin.getD ⟨-widthMeters / 2, -heightMeters / 2⟩
  let conditions : EnvironmentalConditions :=
    { seaState := (jsRound (clamp (lerp 1 6 (s 0)) 0 9) : ℤ)
      windKts := (jsRound (lerp 3 38 (s 1)) : ℤ)
      visibilityKm := (jsRound (lerp 4 30 (s 2)) : ℤ)
      surfaceTempC := (jsRound (lerp 12 28 (s 3)) : ℤ)
      description := jsListGet conditionDescriptions (jsFloor (s 4 * 6)) }
  let water : WaterSettings :=
    { defaultWaterSettings with
      textureStrength := clamp (0.55 + s 5 * 0.3) 0.4 0.85
      noiseScale := clamp (0.01 + s 6 * 0.01) 0.008 0.022
      detailScale := clamp (0.05 + s 7 * 0.03) 0.045 0.09 }
  let bounds : SectorBounds := ⟨originPoint, widthMeters, heightMeters⟩
  let sector : MaritimeSector :=
    { id := params.seed ++ "-" ++ intRepr (jsRound widthMeters) ++ "x" ++ intRepr (jsRound heightMeters)
      name := params.name.getD
        ("Sector " ++ toFixed1 params.boundsKm.width ++ "km x " ++ toFixed1 params.boundsKm.height ++ "km")
      seed := params.seed
      bounds
      conditions
      water
      createdAt := now }
  let normalizedAnomalies := normalizeAnomalyConfig params.anomalyConfig
  { version := 1
    name := sector.name
    seed := params.seed
    sector
    anomalies :=
      { config := normalizedAnomalies
        items := generateAnomalies M rng sector params.seed normalizedAnomalies }
    metadata := some
      { createdAt := sector.createdAt
        labels := some ["generated"]
        notes := params.notes } }

/-- JSON number printing, modelling `JSON.stringify` of a float: exact decimal
expansion when the denominator divides a power of ten, fraction notation
otherwise.  Only functionality (equal inputs give equal bytes) and
injectivity at the concrete points compared by theorems are relied on. -/
def qRepr (q : ℚ) : String :=
  if q.den = 1 then intRepr q.num
  else
    match (List.range 13).find? (fun k => (10 ^ k) % q.den = 0) with
    | some k =>
      let scaled : ℕ := q.num.natAbs * ((10 ^ k) / q.den)
      (if q.num < 0 then "-" else "") ++
        toString (scaled / 10 ^ k) ++ "." ++ (toString (10 ^ k + scaled % 10 ^ k)).drop 1
    | none => intRepr q.num ++ "/" ++ toString q.den

def jsonStr (s : String) : String := "\"" ++ s ++ "\""

def jsonOfVec2 (v : Vec2) : String :=
  "\x7b\"x\":" ++ qRepr v.x ++ ",\"y\":" ++ qRepr v.y ++ "\x7d"

def jsonOfColor (c : ℚ × ℚ × ℚ) : String :=
  "[" ++ qRepr c.1 ++ "," ++ qRepr c.2.1 ++ "," ++ qRepr c.2.2 ++ "]"

def jsonOfBounds (b : SectorBounds) : String :=
  "\x7b\"origin\":" ++ jsonOfVec2 b.origin ++ ",\"widthMeters\":" ++ qRepr b.widthMeters ++
    ",\"heightMeters\":" ++ qRepr b.heightMeters ++ "\x7d"

/-- `JSON.stringify` drops `undefined`-valued keys, hence the empty string for `none`. -/
def jsonOptField (key : String) (v : Option String) : String :=
  match v with
  | none => ""
  | some s => "," ++ jsonStr key ++ ":" ++ s

def jsonOfConditions (c : EnvironmentalConditions) : String :=
  "\x7b\"seaState\":" ++ qRepr c.seaState ++ ",\"windKts\":" ++ qRepr c.windKts ++
    ",\"visibilityKm\":" ++ qRepr c.visibilityKm ++ ",\"surfaceTempC\":" ++ qRepr c.surfaceTempC ++
    jsonOptField "description" (c.description.map jsonStr) ++ "\x7d"

def jsonOfWater (w : WaterSettings) : String :=
  "\x7b\"tileSize\":" ++ qRepr w.tileSize ++ ",\"noiseScale\":" ++ qRepr w.noiseScale ++
    ",\"detailScale\":" ++ qRepr w.detailScale ++ ",\"baseColor\":" ++ jsonOfColor w.baseColor ++
    ",\"highlightColor\":" ++ jsonOfColor w.highlightColor ++
    ",\"textureStrength\":" ++ qRepr w.textureStrength ++ "\x7d"

def jsonOfSector (s : MaritimeSector) : String :=
  "\x7b\"id\":" ++ jsonStr s.id ++ ",\"name\":" ++ jsonStr s.name ++
    ",\"seed\":" ++ jsonStr s.seed ++ ",\"bounds\":" ++ jsonOfBounds s.bounds ++
    ",\"conditions\":" ++ jsonOfConditions s.conditions ++ ",\"water\":" ++ jsonOfWater s.water ++
    ",\"createdAt\":" ++ jsonStr s.createdAt ++ "\x7d"

def jsonOfAnomalyConfig (c : AnomalyConfig) : String :=
  "\x7b\"count\":" ++ qRepr c.count ++ ",\"detectionRadiusMeters\":" ++
    qRepr c.detectionRadiusMeters ++ "\x7d"

def jsonOfAnomalySettings (s : AnomalySettings) : String :=
  "\x7b" ++
    (String.intercalate ","
      (anomalyTypeOrder.map (fun t => jsonStr t.tag ++ ":" ++ jsonOfAnomalyConfig (s.get t)))) ++
  "\x7d"

def jsonOfItem (a : AnomalyInstance) : String :=
  "\x7b\"id\":" ++ jsonStr a.id ++ ",\"type\":" ++ jsonStr a.anomalyType.tag ++
    ",\"position\":" ++ jsonOfVec2 a.position ++
    ",\"detected\":" ++ (if a.detected then "true" else "false") ++
    ",\"detectionRadiusMeters\":" ++ qRepr a.detectionRadiusMeters ++
    jsonOptField "note" (a.note.map jsonStr) ++ "\x7d"

def jsonOfMetadata (m : ScenarioMetadata) : String :=
  "\x7b\"createdAt\":" ++ jsonStr m.createdAt ++
    jsonOptField "labels"
      (m.labels.map (fun ls => "[" ++ String.intercalate "," (ls.map jsonStr) ++ "]")) ++
    jsonOptField "notes" (m.notes.map jsonStr) ++ "\x7d"

/-- generator.ts `scenarioToJSON` (`JSON.stringify(scenario, null, 2)`),
with the source object's key order; whitespace is not reproduced. -/
def scenarioToJSON (s : MaritimeScenario) : String :=
  "\x7b\"version\":" ++ qRepr s.version ++ ",\"name\":" ++ jsonStr s.name ++
    ",\"seed\":" ++ jsonStr s.seed ++ ",\"sector\":" ++ jsonOfSector s.sector ++
    ",\"anomalies\":\x7b\"config\":" ++ jsonOfAnomalySettings s.anomalies.config ++
    ",\"items\":[" ++ String.intercalate "," (s.anomalies.items.map jsonOfItem) ++ "]\x7d" ++
    jsonOptField "metadata" (s.metadata.map jsonOfMetadata) ++ "\x7d"

/-!
## `validateScenario` and its payload model

`validateScenario` takes an `any` payload.  Payloads are modelled as
structures of `Option`-typed fields: `none` stands for a missing key, a
non-coercible value, or (for positions) a non-finite `Number(...)` result.
This covers every payload reachable from `JSON.parse` output that the
claims quantify over, in particular the exact images of generated
scenarios under `JSON.parse(JSON.stringify(·))`.
-/

structure PayloadItem where
  id : Option String
  tag : Option String
  posX : Option ℚ
  posY : Option ℚ
  detected : Option Bool
  detectionRadiusMeters : Option ℚ
  note : Option String
deriving DecidableEq, Repr

structure PayloadBounds where
  origin : Option Vec2
  widthMeters : Option ℚ
  heightMeters : Option ℚ
deriving DecidableEq, Repr

structure PayloadConditions where
  seaState : Option ℚ
  windKts : Option ℚ
  visibilityKm : Option ℚ
  surfaceTempC : Option ℚ
  description : Option String
deriving DecidableEq, Repr

structure PayloadWater where
  tileSize : Option ℚ
  noiseScale : Option ℚ
  detailScale : Option ℚ
  baseColor : Option (List ℚ)
  highlightColor : Option (List ℚ)
  textureStrength : Option ℚ
deriving DecidableEq, Repr

structure PayloadSector where
  id : Option String
  name : Option String
  bounds : Option PayloadBounds
  conditions : Option PayloadConditions
  water : Option PayloadWater
  createdAt : Option String
deriving DecidableEq, Repr

structure ScenarioPayload where
  version : Option ℚ
  name : Option String
  seed : Option String
  sector : Option PayloadSector
  anomaliesConfig : Option AnomalySettingsPatch
  anomaliesItems : Option (List PayloadItem)
  metadata : Option ScenarioMetadata
deriving Repr

/-- The payload image of one anomaly instance under the JSON round trip. -/
def payloadItemOf (a : AnomalyInstance) : PayloadItem :=
  { id := some a.id
    tag := some a.anomalyType.tag
    posX := some a.position.x
    posY := some a.position.y
    detected := some a.detected
    detectionRadiusMeters := some a.detectionRadiusMeters
    note := a.note }

/-- The payload image of an anomaly config table under the JSON round trip. -/
def patchOfSettings (c : AnomalySettings) : AnomalySettingsPatch :=
  { personInWater := some ⟨some c.personInWater.count, some c.personInWater.detectionRadiusMeters⟩
    lifeboat := some ⟨some c.lifeboat.count, some c.lifeboat.detectionRadiusMeters⟩
    debrisField := some ⟨some c.debrisField.count, some c.debrisField.detectionRadiusMeters⟩
    falsePositive := some ⟨some c.falsePositive.count, some c.falsePositive.detectionRadiusMeters⟩ }

/-- The image of a scenario value under `JSON.parse(JSON.stringify(·))`:
every field is present (`undefined`-valued optional fields are dropped by
stringify and stay absent after parse, which `Option` already models). -/
def payloadOfScenario (s : MaritimeScenario) : ScenarioPayload :=
  { version := some s.version
    name := some s.name
    seed := some s.seed
    sector := some
      { id := some s.sector.id
        name := some s.sector.name
        bounds := some
          { origin := some s.sector.bounds.origin
            widthMeters := some s.sector.bounds.widthMeters
            heightMeters := some s.sector.bounds.heightMeters }
        conditions := some
          { seaState := some s.sector.conditions.seaState
            windKts := some s.sector.conditions.windKts
            visibilityKm := some s.sector.conditions.visibilityKm
            surfaceTempC := some s.sector.conditions.surfaceTempC
            description := s.sector.conditions.description }
        water := some
          { tileSize := some s.sector.water.tileSize
            noiseScale := some s.sector.water.noiseScale
            detailScale := some s.sector.water.detailScale
            baseColor := some [s.sector.water.baseColor.1, s.sector.water.baseColor.2.1,
              s.sector.water.baseColor.2.2]
            highlightColor := some [s.sector.water.highlightColor.1,
              s.sector.water.highlightColor.2.1, s.sector.water.highlightColor.2.2]
            textureStrength := some s.sector.water.textureStrength }
        createdAt := some s.sector.createdAt }
    anomaliesConfig := some (patchOfSettings s.anomalies.config)
    anomaliesItems := some (s.anomalies.items.map payloadItemOf)
    metadata := s.metadata }

/-- generator.ts `sanitizeAnomalyItems`, first phase, for one payload item at
index `idx`: returns `none` where the source's `.map` callback returns `null`
(unknown type, non-finite position); threads the sanitize sampler's stream
index, consumed only when the clamped candidate falls inside the hub zone. -/
def sanitizeOneItem (M : JsMath) (bounds : SectorBounds) (hub : Hub)
    (stream : ℕ → ℚ) (config : AnomalySettings) (idx : ℕ)
    (item : PayloadItem) (i : ℕ) : Option AnomalyInstance × ℕ :=
  match anomalyTypeOrder.find? (fun t => item.tag = some t.tag) with
  | none => (none, i)
  | some t =>
    match item.posX, item.posY with
    | some x, some y =>
      let detectionRadiusMeters :=
        max 10 (item.detectionRadiusMeters.getD (config.get t).detectionRadiusMeters)
      let candidate : Vec2 :=
        ⟨clamp x bounds.origin.x (bounds.origin.x + bounds.widthMeters),
         clamp y bounds.origin.y (bounds.origin.y + bounds.heightMeters)⟩
      let posPair :=
        if isInsideHubSafeZone candidate hub then samplePosition M bounds hub stream i
        else (candidate, i)
      (some
        { id := item.id.getD (t.tag ++ "-" ++ intRepr (idx + 1))
          anomalyType := t
          position := posPair.1
          detected := item.detected.getD false
          detectionRadiusMeters
          note := item.note }, posPair.2)
    | _, _ => (none, i)

/-- The mapped-and-filtered first phase of `sanitizeAnomalyItems` over the
whole payload list. -/
def sanitizeItemsPass (M : JsMath) (bounds : SectorBounds) (hub : Hub)
    (stream : ℕ → ℚ) (config : AnomalySettings) :
    List PayloadItem → ℕ → ℕ → List AnomalyInstance
  | [], _, _ => []
  | item :: rest, idx, i =>
    match sanitizeOneItem M bounds hub stream config idx item i with
    | (none, i₁) => sanitizeItemsPass M bounds hub stream config rest (idx + 1) i₁
    | (some a, i₁) => a :: sanitizeItemsPass M bounds hub stream config rest (idx + 1) i₁

/-- generator.ts `sanitizeAnomalyItems`.  The sanitize sampler is seeded with
`` `${seed}-anomalies-sanitize` ``; a non-array items payload yields `[]`;
a count mismatch regenerates the list; the final map replaces a falsy
(i.e. zero) detection radius with the configured one. -/
def sanitizeAnomalyItems (M : JsMath) (rng : Rng) (payloadItems : Option (List PayloadItem))
    (sector : MaritimeSector) (seed : String) (config : AnomalySettings) :
    List AnomalyInstance :=
  let hub := droneHubFromBounds sector.bounds
  let stream := rng (seed ++ "-anomalies-sanitize")
  let items :=
    match payloadItems with
    | some l => sanitizeItemsPass M sector.bounds hub stream config l 0 0
    | none => []
  let expected := totalAnomalyCount config
  if (items.length : ℚ) ≠ expected then
    generateAnomalies M rng sector seed config
  else
    items.map (fun item =>
      { item with
        detectionRadiusMeters :=
          if item.detectionRadiusMeters = 0 then (config.get item.anomalyType).detectionRadiusMeters
          else item.detectionRadiusMeters })

/-- generator.ts `validateScenario`; `now` models the `new Date().toISOString()`
fallback for a missing `sector.createdAt`. -/
def validateScenario (M : JsMath) (rng : Rng) (payload : ScenarioPayload)
    (now : String) : Except String MaritimeScenario :=
  if payload.version ≠ some 1 then
    .error "Unsupported or missing scenario version"
  else
    match payload.seed, payload.sector with
    | some seed, some sector =>
      if seed = "" then .error "Scenario missing seed or sector definition"
      else
        match sector.bounds with
        | none => .error "Sector bounds are invalid"
        | some b =>
          match b.widthMeters, b.heightMeters with
          | some widthMeters, some heightMeters =>
            match sector.conditions with
            | none => .error "Sector conditions are missing"
            | some conditions =>
              let water := sector.water.getD
                { tileSize := some defaultWaterSettings.tileSize
                  noiseScale := some defaultWaterSettings.noiseScale
                  detailScale := some defaultWaterSettings.detailScale
                  baseColor := some [16, 60, 96]
                  highlightColor := some [38, 114, 176]
                  textureStrength := some defaultWaterSettings.textureStrength }
              let baseColor : ℚ × ℚ × ℚ :=
                match water.baseColor with
                | some (r :: g :: b :: _) => (r, g, b)
                | _ => defaultWaterSettings.baseColor
              let highlightColor : ℚ × ℚ × ℚ :=
                match water.highlightColor with
                | some (r :: g :: b :: _) => (r, g, b)
                | _ => defaultWaterSettings.highlightColor
              let safeSector : MaritimeSector :=
                { id := sector.id.getD
                    (seed ++ "-" ++ intRepr (jsRound widthMeters) ++ "x" ++ intRepr (jsRound heightMeters))
                  name := sector.name.getD (payload.name.getD "Unnamed Sector")
                  seed := seed
                  bounds :=
                    { origin := b.origin.getD ⟨-widthMeters / 2, -heightMeters / 2⟩
                      widthMeters
                      heightMeters }
                  conditions :=
                    { seaState := conditions.seaState.getD 0
                      windKts := conditions.windKts.getD 0
                      visibilityKm := conditions.visibilityKm.getD 0
                      surfaceTempC := conditions.surfaceTempC.getD 0
                      description := conditions.description }
                  water :=
                    { tileSize := water.tileSize.getD defaultWaterSettings.tileSize
                      noiseScale := water.noiseScale.getD defaultWaterSettings.noiseScale
                      detailScale := water.detailScale.getD defaultWaterSettings.detailScale
                      baseColor
                      highlightColor
                      textureStrength := water.textureStrength.getD defaultWaterSettings.textureStrength }
                  createdAt := sector.createdAt.getD now }
              let normalizedAnomalies := normalizeAnomalyConfig payload.anomaliesConfig
              .ok
                { version := 1
                  name := payload.name.getD safeSector.name
                  seed := seed
                  sector := safeSector
                  anomalies :=
                    { config := normalizedAnomalies
                      items := sanitizeAnomalyItems M rng payload.anomaliesItems safeSector seed
                        normalizedAnomalies }
                  metadata := payload.metadata }
          | _, _ => .error "Sector bounds are invalid"
    | _, _ => .error "Scenario missing seed or sector definition"

/-!
## Drone state and the kinematics tick (App.tsx)

`batteryWarningThresholds` and `batteryEmergencyBufferMinutes` are imported
by App.tsx from `src/config/constants.ts`, whose staged copy does not contain
them.  Modelled from the spec: "descending battery-percentage thresholds"
and "a fixed safety buffer" — both kept as explicit parameters (`thresholds`,
`buffer`) of the definitions that use them, since no claim depends on their
values.
-/

/-- A JS number that may be `Number.POSITIVE_INFINITY` (which the source
stores in `returnMinutesRequired` for a zero-speed drone). -/
inductive JNum where
  | num (q : ℚ)
  | posInf
deriving DecidableEq, Repr

inductive DroneStatus where
  | idle
  | launching
  | enroute
  | search
  | returning
  | landed
  | error
deriving DecidableEq, Repr

structure CoverageLane where
  start : Vec2
  stop : Vec2
deriving DecidableEq, Repr

/-- planner.ts `CoveragePlan` (the lane field `end` is a Lean keyword and is
called `stop` here). -/
structure CoveragePlan where
  droneId : String
  cellId : String
  polygon : List Vec2
  spacingMeters : ℚ
  overlapRatio : ℚ
  lanes : List CoverageLane
  waypoints : List Vec2
  completenessPct : ℚ
deriving DecidableEq, Repr

structure DroneModel where
  id : String
  label : String
  speedKts : ℚ
  batteryLifeMinutes : ℚ
deriving DecidableEq, Repr

structure DroneState where
  id : String
  callsign : String
  position : Vec2
  headingDeg : ℚ
  status : DroneStatus
  speedKts : ℚ
  batteryPct : ℚ
  batteryLifeMinutes : ℚ
  batteryMinutesRemaining : ℚ
  homePosition : Vec2
  lastUpdate : ℚ
  targetPosition : Option Vec2
  waypoints : List Vec2
  coveragePlan : Option CoveragePlan
  returnMinutesRequired : JNum
  emergencyReserveMinutes : ℚ
deriving DecidableEq, Repr

/-- App.tsx `clampToBounds`. -/
def clampToBounds (bounds : SectorBounds) (pos : Vec2) : Vec2 :=
  ⟨min (max pos.x bounds.origin.x) (bounds.origin.x + bounds.widthMeters),
   min (max pos.y bounds.origin.y) (bounds.origin.y + bounds.heightMeters)⟩

/-- App.tsx `computeReturnMinutes`: `Number.POSITIVE_INFINITY` when the speed
in m/s is at most 1e-4, else planar distance to home over speed, in minutes. -/
def computeReturnMinutes (M : JsMath) (drone : DroneState) : JNum :=
  let speedMs := max 0 drone.speedKts * 0.514444
  if speedMs ≤ 0.0001 then .posInf
  else
    .num (M.hypot (drone.position.x - drone.homePosition.x)
      (drone.position.y - drone.homePosition.y) / speedMs / 60)

/-- App.tsx `computeEmergencyReserve` (`buffer` models the missing constant
`batteryEmergencyBufferMinutes`, see the section header). -/
def computeEmergencyReserve (M : JsMath) (buffer : ℚ) (drone : DroneState) : ℚ :=
  match computeReturnMinutes M drone with
  | .posInf => droneHubReturnReserveMinutes
  | .num minutesToHub => max (minutesToHub + buffer) droneHubReturnReserveMinutes

/-- The per-drone entry of `batteryWarningStateRef` in App.tsx:
crossed thresholds plus the emergency-already-fired flag. -/
structure WarningState where
  thresholds : List ℚ
  emergency : Bool
deriving DecidableEq, Repr

inductive LogKind where
  | detected
  | falseNegative
  | falsePositive
  | batteryWarning
  | batteryEmergency
deriving DecidableEq, Repr

/-- `DetectionLogEntry` (the human-readable `message` string is
presentation-only and omitted). -/
structure LogEntry where
  id : String
  timestamp : ℚ
  kind : LogKind
  droneId : Option String
  anomalyId : Option String
  anomalyType : Option AnomalyType
  position : Vec2
  confidence : Option ℚ
  batteryPct : Option ℚ
  batteryMinutesRemaining : Option ℚ
  returnMinutesRequired : Option JNum
deriving DecidableEq, Repr

/-- The battery-warning fold of the kinematics tick: for each configured
threshold not yet crossed whose value the battery percentage has reached,
record it and emit a `battery-warning` event. -/
def processWarnings (thresholds : List ℚ) (ws : WarningState) (drone : DroneState)
    (batteryPct batteryMinutesRemaining : ℚ) (returnMinutesRequired : JNum)
    (now : ℚ) : WarningState × List LogEntry :=
  thresholds.foldl
    (fun acc threshold =>
      if ¬ acc.1.thresholds.contains threshold ∧ batteryPct ≤ threshold then
        ({ acc.1 with thresholds := acc.1.thresholds ++ [threshold] },
          acc.2 ++ [{ id := "battery-" ++ drone.id ++ "-" ++ toString threshold ++ "-" ++ toString now
                      timestamp := now
                      kind := .batteryWarning
                      droneId := some drone.id
                      anomalyId := none
                      anomalyType := none
                      position := drone.position
                      confidence := none
                      batteryPct := some batteryPct
                      batteryMinutesRemaining := some batteryMinutesRemaining
                      returnMinutesRequired := some returnMinutesRequired }])
      else acc)
    (ws, [])

/-- One drone's step of the per-animation-frame kinematics effect in App.tsx
(the body of the `setDrones((prev) => prev.map(...))` callback), together
with the events it pushes and the updated warning state.  `hub` is
`hub.position`, `now` is `Date.now()`, `dtSeconds` the frame delta. -/
def tickDrone (M : JsMath) (thresholds : List ℚ) (buffer : ℚ) (hub : Vec2)
    (bounds : SectorBounds) (dtSeconds now : ℚ) (ws : WarningState)
    (drone : DroneState) : DroneState × WarningState × List LogEntry :=
  let queue := drone.waypoints
  let (target₀, remainingQueue₀) :=
    match drone.targetPosition, queue with
    | some t, _ => (some t, queue)
    | none, nextTarget :: rest => (some nextTarget, rest)
    | none, [] => (none, queue)
  let activeWaypoint := target₀ <|> remainingQueue₀.head?
  let drainMinutes := dtSeconds / 60
  let stillFlying := drone.status ≠ DroneStatus.landed
  let batteryMinutesRemaining :=
    max 0 (drone.batteryMinutesRemaining - (if stillFlying then drainMinutes else 0))
  let batteryPct := max 0 (min 100 (batteryMinutesRemaining / drone.batteryLifeMinutes * 100))
  let returnMinutesRequired := computeReturnMinutes M drone
  let emergencyReserveMinutes := computeEmergencyReserve M buffer drone
  let needsReturn := stillFlying ∧ batteryMinutesRemaining ≤ emergencyReserveMinutes
  let statusBase := if needsReturn then DroneStatus.returning else drone.status
  let (ws₁, warnEvents) :=
    if stillFlying ∧ activeWaypoint.isSome then
      processWarnings thresholds ws drone batteryPct batteryMinutesRemaining
        returnMinutesRequired now
    else (ws, [])
  let (ws₂, emergencyEvents) :=
    if stillFlying ∧ needsReturn ∧ ws₁.emergency = false then
      ({ ws₁ with emergency := true },
        [{ id := "battery-emergency-" ++ drone.id ++ "-" ++ toString now
           timestamp := now
           kind := .batteryEmergency
           droneId := some drone.id
           anomalyId := none
           anomalyType := none
           position := drone.position
           confidence := none
           batteryPct := some batteryPct
           batteryMinutesRemaining := some batteryMinutesRemaining
           returnMinutesRequired := some returnMinutesRequired }])
    else (ws₁, [])
  let events := warnEvents ++ emergencyEvents
  let (target, remainingQueue) :=
    if needsReturn then (some hub, []) else (target₀, remainingQueue₀)
  match target with
  | none =>
    -- In this branch the queue was not popped, so the source's reference
    -- inequality `remainingQueue !== queue` is false and only the remaining
    -- comparisons decide whether a fresh record is produced.
    if batteryMinutesRemaining ≠ drone.batteryMinutesRemaining ∨ batteryPct ≠ drone.batteryPct ∨
        statusBase ≠ drone.status ∨ returnMinutesRequired ≠ drone.returnMinutesRequired ∨
        emergencyReserveMinutes ≠ drone.emergencyReserveMinutes then
      ({ drone with
          waypoints := remainingQueue
          batteryMinutesRemaining
          batteryPct
          status := if statusBase = DroneStatus.landed then DroneStatus.landed else statusBase
          returnMinutesRequired
          emergencyReserveMinutes
          lastUpdate := now }, ws₂, events)
    else (drone, ws₂, events)
  | some tgt =>
    let speedMs := drone.speedKts * 0.514444
    if speedMs ≤ 0 then
      ({ drone with
          batteryMinutesRemaining
          batteryPct
          status := statusBase
          returnMinutesRequired
          emergencyReserveMinutes }, ws₂, events)
    else
      let dx := tgt.x - drone.position.x
      let dy := tgt.y - drone.position.y
      let distance := M.hypot dx dy
      let headingDeg := if 0.001 < distance then M.atan2 dy dx * 180 / M.pi else drone.headingDeg
      let enrouteStatus := if needsReturn then DroneStatus.returning else DroneStatus.enroute
      if distance < 0.01 then
        match remainingQueue with
        | nextTarget :: rest =>
          ({ drone with
              position := clampToBounds bounds tgt
              headingDeg
              targetPosition := some nextTarget
              waypoints := rest
              status := enrouteStatus
              batteryMinutesRemaining
              batteryPct
              returnMinutesRequired
              emergencyReserveMinutes
              lastUpdate := now }, ws₂, events)
        | [] =>
          let atHub := M.hypot (tgt.x - hub.x) (tgt.y - hub.y) < 1
          ({ drone with
              position := clampToBounds bounds tgt
              headingDeg
              targetPosition := none
              waypoints := []
              status := if atHub then DroneStatus.landed else DroneStatus.idle
              batteryMinutesRemaining
              batteryPct
              returnMinutesRequired
              emergencyReserveMinutes
              lastUpdate := now }, ws₂, events)
      else
        let maxStep := speedMs * dtSeconds
        if maxStep ≤ 0 then
          ({ drone with
              batteryMinutesRemaining
              batteryPct
              status := statusBase
              returnMinutesRequired
              emergencyReserveMinutes }, ws₂, events)
        else
          let frac := if distance ≤ maxStep then 1 else maxStep / distance
          let nextPos := clampToBounds bounds
            ⟨drone.position.x + dx * frac, drone.position.y + dy * frac⟩
          let reached := 1 ≤ frac ∨ M.hypot (tgt.x - nextPos.x) (tgt.y - nextPos.y) < 0.1
          if reached then
            match remainingQueue with
            | nextTarget :: rest =>
              ({ drone with
                  position := clampToBounds bounds tgt
                  headingDeg
                  status := enrouteStatus
                  targetPosition := some nextTarget
                  waypoints := rest
                  batteryMinutesRemaining
                  batteryPct
                  returnMinutesRequired
                  emergencyReserveMinutes
                  lastUpdate := now }, ws₂, events)
            | [] =>
              let atHub := M.hypot (tgt.x - hub.x) (tgt.y - hub.y) < 1
              ({ drone with
                  position := clampToBounds bounds tgt
                  headingDeg
                  status := if atHub then DroneStatus.landed else DroneStatus.idle
                  targetPosition := none
                  waypoints := []
                  batteryMinutesRemaining
                  batteryPct
                  returnMinutesRequired
                  emergencyReserveMinutes
                  lastUpdate := now }, ws₂, events)
          else
            ({ drone with
                position := nextPos
                headingDeg
                status := enrouteStatus
                targetPosition := some tgt
                waypoints := remainingQueue
                batteryMinutesRemaining
                batteryPct
                returnMinutesRequired
                emergencyReserveMinutes
                lastUpdate := now }, ws₂, events)

/-- App.tsx `handleSetWaypoint`, restricted to one drone of the roster;
`selected` is membership of the drone's id in `selectedDroneIds`. -/
def applySetWaypoint (bounds : SectorBounds) (selected append : Bool) (point : Vec2)
    (now : ℚ) (drone : DroneState) : DroneState :=
  if ¬ selected then drone
  else
    let clampedPoint := clampToBounds bounds point
    let queue := drone.waypoints
    if append then
      let updatedQueue := queue ++ [clampedPoint]
      match drone.targetPosition with
      | some _ => { drone with waypoints := updatedQueue, lastUpdate := now }
      | none =>
        match updatedQueue with
        | nextTarget :: rest =>
          { drone with
              targetPosition := some nextTarget
              waypoints := rest
              status := .enroute
              lastUpdate := now }
        | [] => drone  -- unreachable: `updatedQueue` always holds the new point
    else
      { drone with
          targetPosition := some clampedPoint
          waypoints := []
          status := .enroute
          lastUpdate := now }

/-- App.tsx `handleDronePositionChange` (canvas drag), for the dragged drone. -/
def applyDronePositionChange (bounds : SectorBounds) (position : Vec2) (now : ℚ)
    (drone : DroneState) : DroneState :=
  { drone with
      position := clampToBounds bounds position
      targetPosition := none
      status := .idle
      lastUpdate := now }

/-- App.tsx `handleSpawnDrone`: the fresh record built for a spawn point and
model, then hydrated with the computed return/reserve minutes.  `id` models
`createDroneId(seed)` (whose random token is irrelevant here). -/
def spawnDrone (M : JsMath) (buffer : ℚ) (id callsign : String) (model : DroneModel)
    (spawnPos hub : Vec2) (bounds : SectorBounds) (now : ℚ) : DroneState :=
  let newDrone : DroneState :=
    { id
      callsign
      position := clampToBounds bounds spawnPos
      headingDeg := 0
      status := .idle
      speedKts := model.speedKts
      batteryPct := 100
      batteryLifeMinutes := model.batteryLifeMinutes
      batteryMinutesRemaining := model.batteryLifeMinutes
      homePosition := hub
      lastUpdate := now
      targetPosition := none
      waypoints := []
      coveragePlan := none
      returnMinutesRequired := .num 0
      emergencyReserveMinutes := 0 }
  { newDrone with
      returnMinutesRequired := computeReturnMinutes M newDrone
      emergencyReserveMinutes := computeEmergencyReserve M buffer newDrone }

/-!
## The sensor / detection interval effect (App.tsx)
-/

structure SensorConfig where
  rangeMeters : ℚ
  optimalDetectionProbability : ℚ
  edgeDetectionProbability : ℚ
  falsePositiveRatePerMinute : ℚ
  checkIntervalMs : ℚ
  logLimit : ℕ
deriving DecidableEq, Repr

/-- config/sensors.ts `defaultSensorConfig`. -/
def defaultSensorConfig : SensorConfig :=
  { rangeMeters := 450
    optimalDetectionProbability := 0.9
    edgeDetectionProbability := 0.25
    falsePositiveRatePerMinute := 0.08
    checkIntervalMs := 600
    logLimit := 150 }

/-- App.tsx `detectionProbability`. -/
def detectionProbability (M : JsMath) (cfg : SensorConfig) (distanceMeters : ℚ) : ℚ :=
  let range := max 1 cfg.rangeMeters
  let falloff := max 0 (min 1 (1 - distanceMeters / range))
  let shaped := M.pow falloff 1.4
  let base := cfg.edgeDetectionProbability
  let peak := cfg.optimalDetectionProbability
  min 1 (max 0 (base + (peak - base) * shaped))

/-- App.tsx `appendLog`: newest first, capped at `logLimit`. -/
def appendLog (logLimit : ℕ) (entries prev : List LogEntry) : List LogEntry :=
  (entries ++ prev).take logLimit

/-- The accumulator threaded through the detection interval effect:
the items array being updated, the pushed events, the
`lastFalseNegativeRef` map, and the index of the next `Math.random()` draw. -/
structure DetState where
  items : List AnomalyInstance
  events : List LogEntry
  missMap : List (String × ℚ)
  k : ℕ
deriving Repr

def lookupMiss (m : List (String × ℚ)) (key : String) : ℚ :=
  ((m.find? (fun p => p.1 = key)).map (·.2)).getD 0

def setMiss (m : List (String × ℚ)) (key : String) (v : ℚ) : List (String × ℚ) :=
  if (m.find? (fun p => p.1 = key)).isSome then
    m.map (fun p => if p.1 = key then (p.1, v) else p)
  else m ++ [(key, v)]

/-- The inner anomaly loop body of the detection effect for one drone and the
anomaly at index `idx` of the items list captured at tick start.  `range` is
`Math.max(10, cfg.rangeMeters)`. -/
def detectOne (M : JsMath) (cfg : SensorConfig) (rand : ℕ → ℚ) (now range : ℚ)
    (drone : DroneState) (idx : ℕ) (anomaly : AnomalyInstance) (st : DetState) : DetState :=
  let dx := anomaly.position.x - drone.position.x
  let dy := anomaly.position.y - drone.position.y
  let distance := M.hypot dx dy
  if range < distance then st
  else
    let confidence := detectionProbability M cfg distance
    let roll := rand st.k
    if roll ≤ confidence then
      if anomaly.detected then { st with k := st.k + 1 }
      else
        { st with
            items := st.items.set idx { anomaly with detected := true }
            events := st.events ++
              [{ id := "hit-" ++ anomaly.id ++ "-" ++ toString now
                 timestamp := now
                 kind := .detected
                 droneId := some drone.id
                 anomalyId := some anomaly.id
                 anomalyType := some anomaly.anomalyType
                 position := anomaly.position
                 confidence := some confidence
                 batteryPct := none
                 batteryMinutesRemaining := none
                 returnMinutesRequired := none }]
            k := st.k + 1 }
    else if anomaly.detected then { st with k := st.k + 1 }
    else
      let missKey := drone.id ++ "-" ++ anomaly.id
      let lastMiss := lookupMiss st.missMap missKey
      if cfg.checkIntervalMs * 2 < now - lastMiss then
        { st with
            missMap := setMiss st.missMap missKey now
            events := st.events ++
              [{ id := "miss-" ++ anomaly.id ++ "-" ++ toString now
                 timestamp := now
                 kind := .falseNegative
                 droneId := some drone.id
                 anomalyId := some anomaly.id
                 anomalyType := some anomaly.anomalyType
                 position := anomaly.position
                 confidence := some confidence
                 batteryPct := none
                 batteryMinutesRemaining := none
                 returnMinutesRequired := none }]
            k := st.k + 1 }
      else { st with k := st.k + 1 }

/-- The false-positive synthesis step run once per drone after its anomaly
loop.  `tokenOf` models `Math.random().toString(36).slice(2, 8)`. -/
def falsePositiveStep (M : JsMath) (tokenOf : ℚ → String) (cfg : SensorConfig)
    (config : AnomalySettings) (bounds : SectorBounds) (rand : ℕ → ℚ)
    (now range : ℚ) (drone : DroneState) (st : DetState) : DetState :=
  let falsePositiveChance := cfg.falsePositiveRatePerMinute * (cfg.checkIntervalMs / 60000)
  if rand st.k < falsePositiveChance then
    let angle := rand (st.k + 1) * M.pi * 2
    let radius := rand (st.k + 2) * range * 0.9
    let position := clampToBounds bounds
      ⟨drone.position.x + M.cos angle * radius, drone.position.y + M.sin angle * radius⟩
    let id := "fp-" ++ tokenOf (rand (st.k + 3)) ++ "-" ++ toString now
    let fp : AnomalyInstance :=
      { id
        anomalyType := .falsePositive
        position
        detected := true
        detectionRadiusMeters := (config.get .falsePositive).detectionRadiusMeters
        note := some ("False positive from " ++ drone.callsign) }
    { st with
        items := st.items ++ [fp]
        events := st.events ++
          [{ id := "fp-log-" ++ id
             timestamp := now
             kind := .falsePositive
             droneId := some drone.id
             anomalyId := some id
             anomalyType := some .falsePositive
             position
             confidence := none
             batteryPct := none
             batteryMinutesRemaining := none
             returnMinutesRequired := none }]
        k := st.k + 4 }
  else { st with k := st.k + 1 }

/-- One drone's pass of the detection effect: the anomaly loop over the items
captured at tick start (`origItems`), then the false-positive step. -/
def detectDrone (M : JsMath) (tokenOf : ℚ → String) (cfg : SensorConfig)
    (config : AnomalySettings) (bounds : SectorBounds) (origItems : List AnomalyInstance)
    (rand : ℕ → ℚ) (now range : ℚ) (drone : DroneState) (st : DetState) : DetState :=
  let st₁ := (origItems.enum.foldl
    (fun acc (p : ℕ × AnomalyInstance) => detectOne M cfg rand now range drone p.1 p.2 acc) st)
  falsePositiveStep M tokenOf cfg config bounds rand now range drone st₁

/-- The whole detection interval effect of App.tsx: returns the replaced items
array, the pushed events, and the updated false-negative rate-limit map.
Every drone's anomaly loop reads the items captured at tick start, while
writes accumulate (the source indexes `updatedItems` and appends to it). -/
def detectionTick (M : JsMath) (tokenOf : ℚ → String) (cfg : SensorConfig)
    (config : AnomalySettings) (bounds : SectorBounds) (drones : List DroneState)
    (items : List AnomalyInstance) (rand : ℕ → ℚ) (missMap : List (String × ℚ))
    (now : ℚ) : List AnomalyInstance × List LogEntry × List (String × ℚ) :=
  if drones.isEmpty then (items, [], missMap)
  else
    let range := max 10 cfg.rangeMeters
    let final := drones.foldl
      (fun st drone => detectDrone M tokenOf cfg config bounds items rand now range drone st)
      ⟨items, [], missMap, 0⟩
    (final.items, final.events, final.missMap)

/-!
## Weighted Voronoi partition (components/canvas/voronoi.ts)

`buildCells` calls the external `d3-delaunay` dependency for the base
partition.  Modelled from the spec: "Base partition: clip each site's cell to
the sector rectangle" — the nearest-site cell intersected with the bounding
rectangle is implemented here by successive half-plane (perpendicular
bisector) clipping of the rectangle, which agrees with the library's
documented output up to vertex order and duplication of the closing vertex
(both of which leave `polygonArea` and `polygonCentroid` unchanged).
-/

/-- The cyclic edge list `(poly[i], poly[(i + 1) % n])` used by the polygon
area/centroid loops. -/
def cyclicPairs (l : List Vec2) : List (Vec2 × Vec2) := l.zip (l.rotate 1)

/-- The accumulated cross-product sum of the polygon loops (the source's
`area` accumulator, before halving). -/
def shoelace (l : List Vec2) : ℚ :=
  ((cyclicPairs l).map (fun p => p.1.x * p.2.y - p.2.x * p.1.y)).sum

/-- voronoi.ts / planner.ts `polygonArea` (the two copies are identical). -/
def polygonArea (points : List Vec2) : ℚ :=
  if points.length < 3 then 0 else |shoelace points| / 2

/-- voronoi.ts `polygonCentroid`: signed-area-weighted centroid with the
arithmetic-mean fallback when `|area| < 1e-5`. -/
def polygonCentroid (points : List Vec2) : Vec2 :=
  match points with
  | [] => ⟨0, 0⟩
  | _ =>
    let area := shoelace points
    let cx := ((cyclicPairs points).map
      (fun p => (p.1.x + p.2.x) * (p.1.x * p.2.y - p.2.x * p.1.y))).sum
    let cy := ((cyclicPairs points).map
      (fun p => (p.1.y + p.2.y) * (p.1.x * p.2.y - p.2.x * p.1.y))).sum
    if |area| < 1 / 100000 then
      ⟨(points.map (·.x)).sum / points.length, (points.map (·.y)).sum / points.length⟩
    else
      ⟨cx * (1 / (3 * area)), cy * (1 / (3 * area))⟩

/-- `dist²(p, b) − dist²(p, a)`: positive where `p` is strictly closer to `a`;
affine in `p`, so edges cross the bisector where it changes sign. -/
def bisectorVal (a b p : Vec2) : ℚ :=
  (p.x - b.x) ^ 2 + (p.y - b.y) ^ 2 - ((p.x - a.x) ^ 2 + (p.y - a.y) ^ 2)

/-- Clip a convex polygon to the closed half-plane of points at least as close
to `a` as to `b` (Sutherland–Hodgman step). -/
def clipBisector (a b : Vec2) (poly : List Vec2) : List Vec2 :=
  (cyclicPairs poly).foldl
    (fun out pq =>
      let (p, q) := pq
      let fp := bisectorVal a b p
      let fq := bisectorVal a b q
      let out₁ := if 0 ≤ fp then out ++ [p] else out
      if (0 ≤ fp) ≠ (0 ≤ fq) then
        let t := fp / (fp - fq)
        out₁ ++ [⟨p.x + t * (q.x - p.x), p.y + t * (q.y - p.y)⟩]
      else out₁)
    []

/-- The model of `voronoi.cellPolygon(idx)`: the sector rectangle clipped by
the bisector against every other site. -/
def cellPolygonFor (positions : List Vec2) (idx : ℕ) (bounds : SectorBounds) : List Vec2 :=
  let x0 := bounds.origin.x
  let y0 := bounds.origin.y
  let x1 := bounds.origin.x + bounds.widthMeters
  let y1 := bounds.origin.y + bounds.heightMeters
  let rect : List Vec2 := [⟨x0, y0⟩, ⟨x1, y0⟩, ⟨x1, y1⟩, ⟨x0, y1⟩]
  match positions.get? idx with
  | none => rect
  | some a =>
    (positions.enum.foldl
      (fun poly jb => if jb.1 = idx then poly else clipBisector a jb.2 poly) rect)

structure VoronoiCell where
  droneId : String
  polygon : List Vec2
  centroid : Vec2
deriving DecidableEq, Repr

/-- A site of the partition: the drone record and its (clamped, possibly
spread) position. -/
structure Site where
  drone : DroneState
  position : Vec2
deriving DecidableEq, Repr

/-- voronoi.ts `buildCells`: skip degenerate cells, clamp every vertex to the
sector rectangle, attach the centroid. -/
def buildCells (sites : List Site) (bounds : SectorBounds) : List VoronoiCell :=
  let positions := sites.map (·.position)
  (sites.enum.filterMap (fun p =>
    let polyRaw := cellPolygonFor positions p.1 bounds
    if polyRaw.length < 3 then none
    else
      let polygon := polyRaw.map (clampToBounds bounds)
      some ⟨p.2.drone.id, polygon, polygonCentroid polygon⟩))

/-- The grouping key of `spreadCoincident` models the `toFixed(3)` string
pair: positions agree on it exactly when both coordinates round to the same
multiple of 1/1000. -/
def spreadKey (p : Vec2) : ℤ × ℤ := (jsRound (p.x * 1000), jsRound (p.y * 1000))

/-- voronoi.ts `spreadCoincident`: group sites by rounded position (insertion
order preserved, base = first member's position) and nudge the members of a
multi-member group apart on a small circle, clamped to bounds. -/
def spreadCoincident (M : JsMath) (points : List Site) (bounds : SectorBounds) : List Site :=
  let groups : List ((ℤ × ℤ) × Vec2 × List Site) :=
    points.foldl
      (fun acc p =>
        let key := spreadKey p.position
        if (acc.find? (fun g => g.1 = key)).isSome then
          acc.map (fun g => if g.1 = key then (g.1, g.2.1, g.2.2 ++ [p]) else g)
        else acc ++ [(key, p.position, [p])])
      []
  let minDim := min bounds.widthMeters bounds.heightMeters
  let radius := max 0.5 (minDim * 0.001)
  groups.flatMap (fun g =>
    let base := g.2.1
    let items := g.2.2
    match items with
    | [_] => items
    | _ =>
      let count := items.length
      items.enum.map (fun p =>
        let angle := 2 * M.pi * p.1 / count
        ⟨p.2.drone,
          clampToBounds bounds
            ⟨base.x + M.cos angle * radius, base.y + M.sin angle * radius⟩⟩))

/-- One refinement pass of `rebalanceVoronoiAreas` over the working sites,
given the cells just built for them. -/
def rebalanceStep (M : JsMath) (bounds : SectorBounds) (center : Vec2)
    (targetFor : String → ℚ) (moveScale : ℚ) (cells : List VoronoiCell)
    (working : List Site) : List Site :=
  working.map (fun site =>
    match cells.find? (fun c => c.droneId = site.drone.id) with
    | none => site
    | some cell =>
      let target := targetFor site.drone.id
      let areaError := (polygonArea cell.polygon - target) / target
      let dir : Vec2 := ⟨site.position.x - center.x, site.position.y - center.y⟩
      let dirLen := let h := M.hypot dir.x dir.y; if h = 0 then 1 else h
      let dirNorm : Vec2 := ⟨dir.x / dirLen, dir.y / dirLen⟩
      let radialAdjust := -areaError * moveScale
      let centroidPull : Vec2 :=
        ⟨(cell.centroid.x - site.position.x) * 0.35, (cell.centroid.y - site.position.y) * 0.35⟩
      let proposed : Vec2 :=
        ⟨site.position.x + dirNorm.x * radialAdjust + centroidPull.x,
         site.position.y + dirNorm.y * radialAdjust + centroidPull.y⟩
      ⟨site.drone, clampToBounds bounds proposed⟩)

/-- The iteration loop of `rebalanceVoronoiAreas`: `iter` is the source's loop
counter, `fuel` the remaining iterations (starting at `maxIterations = 10`).
Exhaustion returns the last computed cells (or a fresh `buildCells` when none
were computed). -/
def rebalanceLoop (M : JsMath) (bounds : SectorBounds) (center : Vec2)
    (targetFor : String → ℚ) (minDim tolerance : ℚ) :
    ℕ → ℕ → List Site → List VoronoiCell → List VoronoiCell
  | 0, _, working, lastCells =>
    if lastCells.length > 0 then lastCells else buildCells working bounds
  | fuel + 1, iter, working, _ =>
    let cells := buildCells working bounds
    if cells.length = 0 then
      -- `break` with `lastCells = cells = []`, then the final fallback
      buildCells working bounds
    else
      let deviations := cells.map (fun c =>
        let target := targetFor c.droneId
        |polygonArea c.polygon - target| / target)
      let maxDeviation :=
        match deviations with
        | [] => 0
        | d :: ds => ds.foldl max d
      if maxDeviation ≤ tolerance then cells
      else
        let moveScale := minDim * 0.2 / ((iter : ℚ) + 1)
        let working₁ := rebalanceStep M bounds center targetFor moveScale cells working
        rebalanceLoop M bounds center targetFor minDim tolerance fuel (iter + 1) working₁ cells

/-- voronoi.ts `rebalanceVoronoiAreas` with the default
`maxIterations = 10`, `tolerance = 0.15`. -/
def rebalanceVoronoiAreas (M : JsMath) (sites : List Site) (bounds : SectorBounds) : List VoronoiCell :=
  let totalArea := bounds.widthMeters * bounds.heightMeters
  let weights := sites.map (fun s => max 0.1 s.drone.speedKts)
  let weightSum := let w := weights.sum; if w = 0 then 1 else w
  let targets : List (String × ℚ) :=
    (sites.zip weights).map (fun p => (p.1.drone.id, totalArea * (p.2 / weightSum)))
  let targetFor : String → ℚ := fun id =>
    (((targets.find? (fun p => p.1 = id)).map (·.2)).getD (totalArea / sites.length))
  let center := centerOfBounds bounds
  let minDim := min bounds.widthMeters bounds.heightMeters
  rebalanceLoop M bounds center targetFor minDim 0.15 10 0 sites []

/-- components/canvas/voronoi.ts `computeVoronoiCells`. -/
def computeVoronoiCells (M : JsMath) (drones : List DroneState) (bounds : SectorBounds)
    (selectedIds : List String) : List VoronoiCell :=
  let raw := (if selectedIds.length > 0 then
      drones.filter (fun d => selectedIds.contains d.id) else drones).map
    (fun d => Site.mk d (clampToBounds bounds d.position))
  let candidatesWithSpread := spreadCoincident M raw bounds
  if candidatesWithSpread.length < 2 then []
  else rebalanceVoronoiAreas M candidatesWithSpread bounds

/-!
## Coverage path planner (domain/coverage/planner.ts)
-/

structure BBox where
  minX : ℚ
  minY : ℚ
  maxX : ℚ
  maxY : ℚ
deriving Repr

/-- planner.ts `bbox` for a nonempty polygon (the `±Infinity` fold seeds reduce
to the coordinate extrema; the empty case is handled where `bbox` is used,
since an empty polygon produces no scan positions). -/
def bboxOf (p : Vec2) (rest : List Vec2) : BBox :=
  rest.foldl
    (fun acc v => ⟨min acc.minX v.x, min acc.minY v.y, max acc.maxX v.x, max acc.maxY v.y⟩)
    ⟨p.x, p.y, p.x, p.y⟩

/-- planner.ts `intersectVertical`: intersection points of the polygon edges
with the vertical scan line, skipping near-vertical edges. -/
def intersectVertical (poly : List Vec2) (x : ℚ) : List Vec2 :=
  (cyclicPairs poly).filterMap (fun ab =>
    let (a, b) := ab
    if x < min a.x b.x ∨ max a.x b.x < x ∨ |a.x - b.x| < 1 / 1000000 then none
    else
      let t := (x - a.x) / (b.x - a.x)
      some ⟨x, a.y + t * (b.y - a.y)⟩)

/-- planner.ts `intersectHorizontal`. -/
def intersectHorizontal (poly : List Vec2) (y : ℚ) : List Vec2 :=
  (cyclicPairs poly).filterMap (fun ab =>
    let (a, b) := ab
    if y < min a.y b.y ∨ max a.y b.y < y ∨ |a.y - b.y| < 1 / 1000000 then none
    else
      let t := (y - a.y) / (b.y - a.y)
      some ⟨a.x + t * (b.x - a.x), y⟩)

/-- Consecutive pairing `hits[i], hits[i+1]` for `i = 0, 2, 4, …` with a
dangling last element dropped, as in the planner's `for (i; i + 1 < n; i += 2)`. -/
def pairUp {α : Type} : List α → List (α × α)
  | a :: b :: rest => (a, b) :: pairUp rest
  | _ => []

/-- Emit the lanes of one scan position, alternating direction with the global
lane index. -/
def lanesAt (hits : List (Vec2 × Vec2)) (laneIndex : ℕ) : List CoverageLane × ℕ :=
  hits.foldl
    (fun acc pair =>
      let lane : CoverageLane :=
        if acc.2 % 2 = 0 then ⟨pair.1, pair.2⟩ else ⟨pair.2, pair.1⟩
      (acc.1 ++ [lane], acc.2 + 1))
    ([], laneIndex)

/-- The number of scan positions `start, start + spacing, …` not exceeding
`limit + 1e-6` (the planner's `while` loop bound); zero for a nonpositive
spacing (unreachable: the caller guards `spacing > 0`). -/
def scanCount (start limit spacing : ℚ) : ℕ :=
  if spacing ≤ 0 ∨ limit + 1 / 1000000 < start then 0
  else (jsFloor ((limit + 1 / 1000000 - start) / spacing)).toNat + 1

/-- planner.ts `buildLanes`: boustrophedon lanes over the longer bbox axis. -/
def buildLanes (poly : List Vec2) (spacing : ℚ) : List CoverageLane :=
  match poly with
  | [] => []
  | p :: rest =>
    let box := bboxOf p rest
    let width := box.maxX - box.minX
    let height := box.maxY - box.minY
    let sweepVertical := height ≤ width
    if sweepVertical then
      let start := box.minX + spacing / 2
      ((List.range (scanCount start box.maxX spacing)).foldl
        (fun acc k =>
          let x := start + spacing * k
          let hits := (intersectVertical poly x).mergeSort (fun u v => u.y ≤ v.y)
          let (lanes, laneIndex) := lanesAt (pairUp hits) acc.2
          (acc.1 ++ lanes, laneIndex))
        (([] : List CoverageLane), 0)).1
    else
      let start := box.minY + spacing / 2
      ((List.range (scanCount start box.maxY spacing)).foldl
        (fun acc k =>
          let y := start + spacing * k
          let hits := (intersectHorizontal poly y).mergeSort (fun u v => u.x ≤ v.x)
          let (lanes, laneIndex) := lanesAt (pairUp hits) acc.2
          (acc.1 ++ lanes, laneIndex))
        (([] : List CoverageLane), 0)).1

/-- planner.ts `lanesToWaypoints`: flatten lanes with explicit connector pairs. -/
def lanesToWaypoints (lanes : List CoverageLane) : List Vec2 :=
  lanes.enum.flatMap (fun p =>
    [p.2.start, p.2.stop] ++
      match lanes.get? (p.1 + 1) with
      | some next => [p.2.stop, next.start]
      | none => [])

/-- planner.ts `planCoveragePaths`. -/
def planCoveragePaths (M : JsMath) (cells : List VoronoiCell)
    (spacingMeters overlapRatio : ℚ) : List CoveragePlan :=
  if spacingMeters ≤ 0 then []
  else
    ((cells.map (fun cell =>
      let lanes := buildLanes cell.polygon spacingMeters
      let waypoints := lanesToWaypoints lanes
      let area := polygonArea cell.polygon
      let laneArea := (lanes.map (fun lane =>
        M.hypot (lane.stop.x - lane.start.x) (lane.stop.y - lane.start.y) * spacingMeters)).sum
      let completeness := if 0 < area then min 1 (laneArea / area) else 0
      ({ droneId := cell.droneId
         cellId := cell.droneId ++ "-cell"
         polygon := cell.polygon
         spacingMeters
         overlapRatio
         lanes
         waypoints
         completenessPct := (jsRound (completeness * 100) : ℤ) } : CoveragePlan))).filter
      (fun plan => plan.lanes.length > 0 && plan.waypoints.length > 0))

/-!
## Helper lemmas: clamping and the anomaly position sampler
-/

/-- The bounds invariant of the spec: `origin.x ≤ p.x ≤ origin.x + width`,
and likewise for `y`. -/
def inBounds (bounds : SectorBounds) (p : Vec2) : Prop :=
  bounds.origin.x ≤ p.x ∧ p.x ≤ bounds.origin.x + bounds.widthMeters ∧
    bounds.origin.y ≤ p.y ∧ p.y ≤ bounds.origin.y + bounds.heightMeters

instance (bounds : SectorBounds) (p : Vec2) : Decidable (inBounds bounds p) := by
  unfold inBounds; infer_instance

theorem clamp_le (v lo hi : ℚ) : clamp v lo hi ≤ hi := min_le_left _ _

theorem le_clamp (v lo hi : ℚ) (h : lo ≤ hi) : lo ≤ clamp v lo hi :=
  le_min h (le_max_left _ _)

theorem clamp_eq_self (v lo hi : ℚ) (h₁ : lo ≤ v) (h₂ : v ≤ hi) : clamp v lo hi = v := by
  unfold clamp
  rw [max_eq_right h₁, min_eq_right h₂]

theorem clampToBounds_inBounds (bounds : SectorBounds) (p : Vec2)
    (hw : 0 ≤ bounds.widthMeters) (hh : 0 ≤ bounds.heightMeters) :
    inBounds bounds (clampToBounds bounds p) := by
  unfold inBounds clampToBounds
  refine ⟨le_min (le_max_right _ _) (by linarith), min_le_right _ _,
    le_min (le_max_right _ _) (by linarith), min_le_right _ _⟩

theorem clampToBounds_eq_self (bounds : SectorBounds) (p : Vec2) (h : inBounds bounds p) :
    clampToBounds bounds p = p := by
  obtain ⟨h₁, h₂, h₃, h₄⟩ := h
  obtain ⟨px, py⟩ := p
  unfold clampToBounds
  rw [Vec2.mk.injEq]
  exact ⟨by rw [max_eq_left h₁, min_eq_left h₂], by rw [max_eq_left h₃, min_eq_left h₄]⟩

/-- When the hub radius is positive, it is at most `min(width, height)/2 − 10`. -/
theorem hubRadius_le (bounds : SectorBounds) (h : 0 < hubRadiusForBounds bounds) :
    hubRadiusForBounds bounds ≤ min bounds.widthMeters bounds.heightMeters / 2 - 10 := by
  simp only [hubRadiusForBounds, droneHubExclusionRadiusMeters] at h ⊢
  rcases le_or_lt (min bounds.widthMeters bounds.heightMeters / 2 - 10) 0 with hsm | hsm
  · rw [max_eq_right hsm, min_eq_right (by norm_num : (0:ℚ) ≤ 150)] at h
    simp at h
  · rw [max_eq_left hsm.le] at h ⊢
    have hx : (0:ℚ) ≤ min 150 (min bounds.widthMeters bounds.heightMeters / 2 - 10) :=
      le_min (by norm_num) hsm.le
    rw [max_eq_right hx]
    exact min_le_right _ _

/-- The fallback placement of the sampler (fuel exhausted): never inside the
hub safe zone, and inside the rectangle whenever the radius is positive
(where the point is strictly interior and clamping is the identity). -/
theorem samplePositionAux_zero_spec (M : JsMath) (bounds : SectorBounds)
    (stream : ℕ → ℚ) (hPy : ∀ θ, M.cos θ ^ 2 + M.sin θ ^ 2 = 1) (i : ℕ) :
    isInsideHubSafeZone (samplePositionAux M bounds (droneHubFromBounds bounds) stream 0 i).1
      (droneHubFromBounds bounds) = false := by
  rw [samplePositionAux]
  set hub := droneHubFromBounds bounds with hhub
  by_cases hR : 0 < hub.radius
  · rw [if_pos hR]
    have hcx : hub.position.x = bounds.origin.x + bounds.widthMeters / 2 := rfl
    have hcy : hub.position.y = bounds.origin.y + bounds.heightMeters / 2 := rfl
    have hR' : 0 < hubRadiusForBounds bounds := hR
    set θ := stream i * M.pi * 2 with hθdef
    set r := hub.radius + 5 with hrdef
    have hRle : hub.radius ≤ min bounds.widthMeters bounds.heightMeters / 2 - 10 :=
      hubRadius_le bounds hR'
    clear_value θ r
    have hr0 : (0:ℚ) < r := by rw [hrdef]; linarith
    have hc2 : M.cos θ ^ 2 ≤ 1 := by nlinarith [sq_nonneg (M.sin θ), hPy θ]
    have hs2 : M.sin θ ^ 2 ≤ 1 := by nlinarith [sq_nonneg (M.cos θ), hPy θ]
    have hcos : |M.cos θ| ≤ 1 := by
      nlinarith [sq_abs (M.cos θ), sq_nonneg (|M.cos θ| - 1), hc2]
    have hsin : |M.sin θ| ≤ 1 := by
      nlinarith [sq_abs (M.sin θ), sq_nonneg (|M.sin θ| - 1), hs2]
    have hminw : min bounds.widthMeters bounds.heightMeters ≤ bounds.widthMeters :=
      min_le_left _ _
    have hminh : min bounds.widthMeters bounds.heightMeters ≤ bounds.heightMeters :=
      min_le_right _ _
    have hrw : r ≤ bounds.widthMeters / 2 - 5 := by rw [hrdef]; linarith
    have hrh : r ≤ bounds.heightMeters / 2 - 5 := by rw [hrdef]; linarith
    have hxabs : |M.cos θ * r| ≤ r := by
      rw [abs_mul, abs_of_pos hr0]
      nlinarith [abs_nonneg (M.cos θ)]
    have hyabs : |M.sin θ * r| ≤ r := by
      rw [abs_mul, abs_of_pos hr0]
      nlinarith [abs_nonneg (M.sin θ)]
    have hxlo := neg_le_of_abs_le hxabs
    have hxhi := le_of_abs_le hxabs
    have hylo := neg_le_of_abs_le hyabs
    have hyhi := le_of_abs_le hyabs
    have hclx : clamp (hub.position.x + M.cos θ * r) bounds.origin.x
        (bounds.origin.x + bounds.widthMeters) = hub.position.x + M.cos θ * r := by
      apply clamp_eq_self
      · rw [hcx]; linarith
      · rw [hcx]; linarith
    have hcly : clamp (hub.position.y + M.sin θ * r) bounds.origin.y
        (bounds.origin.y + bounds.heightMeters) = hub.position.y + M.sin θ * r := by
      apply clamp_eq_self
      · rw [hcy]; linarith
      · rw [hcy]; linarith
    show isInsideHubSafeZone ⟨_, _⟩ hub = false
    rw [hclx, hcly]
    unfold isInsideHubSafeZone
    rw [Bool.and_eq_false_iff]
    right
    rw [decide_eq_false_iff_not]
    push_neg
    have hdist : (hub.position.x + M.cos θ * r - hub.position.x) ^ 2 +
        (hub.position.y + M.sin θ * r - hub.position.y) ^ 2 = r ^ 2 := by
      have hexp : (hub.position.x + M.cos θ * r - hub.position.x) ^ 2 +
          (hub.position.y + M.sin θ * r - hub.position.y) ^ 2 =
          (M.cos θ ^ 2 + M.sin θ ^ 2) * r ^ 2 := by ring
      rw [hexp, hPy θ, one_mul]
    rw [hdist]
    nlinarith [hR, hr0]
  · unfold isInsideHubSafeZone
    rw [Bool.and_eq_false_iff]
    left
    rw [decide_eq_false_iff_not]
    exact hR

/-- The sampler never returns a point inside the hub safe zone: accepted
candidates were tested, and the fallback point sits at distance exactly
`radius + 5` from the hub center (needs `cos² + sin² = 1`). -/
theorem samplePositionAux_not_inside (M : JsMath) (bounds : SectorBounds)
    (stream : ℕ → ℚ) (hPy : ∀ θ, M.cos θ ^ 2 + M.sin θ ^ 2 = 1)
    (fuel i : ℕ) :
    isInsideHubSafeZone (samplePositionAux M bounds (droneHubFromBounds bounds) stream fuel i).1
      (droneHubFromBounds bounds) = false := by
  induction fuel generalizing i with
  | succ fuel ih =>
    rw [samplePositionAux]
    by_cases hc : isInsideHubSafeZone
        ⟨bounds.origin.x + stream i * bounds.widthMeters,
         bounds.origin.y + stream (i + 1) * bounds.heightMeters⟩
        (droneHubFromBounds bounds) = true
    · rw [if_pos hc]
      exact ih (i + 2)
    · rw [if_neg hc]
      exact eq_false_of_ne_true hc
  | zero => exact samplePositionAux_zero_spec M bounds stream hPy i

/-- Under in-range draws and nonnegative bounds, every sampled position lies
inside the sector rectangle. -/
theorem samplePositionAux_inBounds (M : JsMath) (bounds : SectorBounds)
    (stream : ℕ → ℚ) (h01 : ∀ n, 0 ≤ stream n ∧ stream n < 1)
    (hw : 0 ≤ bounds.widthMeters) (hh : 0 ≤ bounds.heightMeters)
    (fuel i : ℕ) :
    inBounds bounds (samplePositionAux M bounds (droneHubFromBounds bounds) stream fuel i).1 := by
  induction fuel generalizing i with
  | succ fuel ih =>
    rw [samplePositionAux]
    by_cases hc : isInsideHubSafeZone
        ⟨bounds.origin.x + stream i * bounds.widthMeters,
         bounds.origin.y + stream (i + 1) * bounds.heightMeters⟩
        (droneHubFromBounds bounds) = true
    · rw [if_pos hc]
      exact ih (i + 2)
    · rw [if_neg hc]
      obtain ⟨hx0, hx1⟩ := h01 i
      obtain ⟨hy0, hy1⟩ := h01 (i + 1)
      refine ⟨?_, ?_, ?_, ?_⟩ <;> dsimp only <;> nlinarith
  | zero =>
    rw [samplePositionAux]
    exact ⟨le_clamp _ _ _ (by linarith), clamp_le _ _ _,
      le_clamp _ _ _ (by linarith), clamp_le _ _ _⟩

/-!
## Lemmas about the generated anomaly items
-/

theorem generateItemsForType_length (M : JsMath) (bounds : SectorBounds) (hub : Hub)
    (stream : ℕ → ℚ) (t : AnomalyType) (radius : ℚ) :
    ∀ n k i, (generateItemsForType M bounds hub stream t radius n k i).1.length = n := by
  intro n
  induction n with
  | zero => intro k i; rfl
  | succ n ih =>
    intro k i
    rw [generateItemsForType]
    simp only [List.length_cons, ih]

/-- Every generated item of one type carries the configured fields and a
position produced by the sampler. -/
theorem generateItemsForType_mem (M : JsMath) (bounds : SectorBounds)
    (stream : ℕ → ℚ) (t : AnomalyType) (radius : ℚ) :
    ∀ n k i item,
      item ∈ (generateItemsForType M bounds (droneHubFromBounds bounds) stream t radius n k i).1 →
      item.anomalyType = t ∧ item.detectionRadiusMeters = radius ∧ item.detected = false ∧
        item.note = none ∧
        ∃ j, item.position =
          (samplePositionAux M bounds (droneHubFromBounds bounds) stream 32 j).1 := by
  intro n
  induction n with
  | zero => intro k i item h; simp [generateItemsForType] at h
  | succ n ih =>
    intro k i item h
    rw [generateItemsForType] at h
    simp only [List.mem_cons] at h
    rcases h with h | h
    · subst h
      exact ⟨rfl, rfl, rfl, rfl, i, rfl⟩
    · exact ih (k + 1) _ item h

/-- Every item of `generateAnomalies` carries its type's configured radius, is
initially undetected, and has a sampler-produced position (over the
`` `${seed}-anomalies` `` stream). -/
theorem generateAnomalies_mem (M : JsMath) (rng : Rng) (sector : MaritimeSector)
    (seed : String) (config : AnomalySettings) :
    ∀ item ∈ generateAnomalies M rng sector seed config,
      item.detectionRadiusMeters = (config.get item.anomalyType).detectionRadiusMeters ∧
        item.detected = false ∧ item.note = none ∧
        ∃ j, item.position =
          (samplePositionAux M sector.bounds (droneHubFromBounds sector.bounds)
            (rng (seed ++ "-anomalies")) 32 j).1 := by
  intro item h
  unfold generateAnomalies at h
  simp only [anomalyTypeOrder, List.foldl_cons, List.foldl_nil, List.append_assoc,
    List.nil_append, List.mem_append] at h
  rcases h with h | h | h | h <;>
    · obtain ⟨h1, h2, h3, h4, h5⟩ := generateItemsForType_mem M sector.bounds
        (rng (seed ++ "-anomalies")) _ _ _ _ _ item h
      rw [h1]
      exact ⟨h2, h3, h4, h5⟩

/-- The length of the generated items list is the sum of the per-type loop
counts, in the type order. -/
theorem generateAnomalies_length (M : JsMath) (rng : Rng) (sector : MaritimeSector)
    (seed : String) (config : AnomalySettings) :
    (generateAnomalies M rng sector seed config).length =
      (anomalyTypeOrder.map (fun t => (jsFloor (config.get t).count).toNat)).sum := by
  unfold generateAnomalies
  simp only [anomalyTypeOrder, List.foldl_cons, List.foldl_nil, List.map_cons, List.map_nil,
    List.length_append, List.length_nil, List.sum_cons, List.sum_nil,
    generateItemsForType_length]
  ring

/-- The normalized config has integral counts at least 0 and radii at least 10. -/
theorem normalizeOneConfig_spec (incoming : Option AnomalyConfigPatch) (dflt : AnomalyConfig) :
    (∃ n : ℕ, (normalizeOneConfig incoming dflt).count = (n : ℚ)) ∧
      10 ≤ (normalizeOneConfig incoming dflt).detectionRadiusMeters := by
  unfold normalizeOneConfig
  dsimp only
  constructor
  · have h : (0:ℤ) ≤ max 0 (jsRound ((incoming.bind (·.count)).getD dflt.count)) :=
      le_max_left _ _
    refine ⟨(max 0 (jsRound ((incoming.bind (·.count)).getD dflt.count))).toNat, ?_⟩
    exact_mod_cast congrArg (fun z : ℤ => (z : ℚ)) (Int.toNat_of_nonneg h).symm
  · have h : (10:ℤ) ≤ max 10 (jsRound ((incoming.bind (·.detectionRadiusMeters)).getD
        dflt.detectionRadiusMeters)) := le_max_left _ _
    exact_mod_cast h

theorem normalizeAnomalyConfig_get (config : Option AnomalySettingsPatch) (t : AnomalyType) :
    (normalizeAnomalyConfig config).get t =
      normalizeOneConfig (config.bind (·.get t)) (defaultAnomalyConfig.get t) := by
  cases t <;> rfl

theorem normalizeAnomalyConfig_spec (config : Option AnomalySettingsPatch) (t : AnomalyType) :
    (∃ n : ℕ, ((normalizeAnomalyConfig config).get t).count = (n : ℚ)) ∧
      10 ≤ ((normalizeAnomalyConfig config).get t).detectionRadiusMeters := by
  rw [normalizeAnomalyConfig_get]
  exact normalizeOneConfig_spec _ _

/-- For a normalized config, the generated list length matches
`totalAnomalyCount` (as rational numbers). -/
theorem generateAnomalies_length_normalized (M : JsMath) (rng : Rng)
    (sector : MaritimeSector) (seed : String) (config : Option AnomalySettingsPatch) :
    ((generateAnomalies M rng sector seed (normalizeAnomalyConfig config)).length : ℚ) =
      totalAnomalyCount (normalizeAnomalyConfig config) := by
  rw [generateAnomalies_length]
  unfold totalAnomalyCount
  simp only [anomalyTypeOrder, List.map_cons, List.map_nil, List.sum_cons, List.sum_nil]
  push_cast
  have key : ∀ t : AnomalyType,
      (((jsFloor ((normalizeAnomalyConfig config).get t).count).toNat : ℕ) : ℚ) =
        ((normalizeAnomalyConfig config).get t).count := by
    intro t
    obtain ⟨⟨n, hn⟩, -⟩ := normalizeAnomalyConfig_spec config t
    rw [hn]
    have : jsFloor (n : ℚ) = (n : ℤ) := by
      unfold jsFloor
      exact_mod_cast Int.floor_natCast n
    rw [this]
    simp
  rw [key .personInWater, key .lifeboat, key .debrisField, key .falsePositive]

/-- Full specification of the items of a generated scenario: in bounds,
outside the hub zone, undetected, note-free, with the normalized radius. -/
theorem generateSector_anomaly_spec (M : JsMath) (rng : Rng) (params : GeneratorParams)
    (now : String) (hPy : ∀ θ, M.cos θ ^ 2 + M.sin θ ^ 2 = 1)
    (h01 : ∀ s n, 0 ≤ rng s n ∧ rng s n < 1) :
    ∀ item ∈ (generateSector M rng params now).anomalies.items,
      inBounds (generateSector M rng params now).sector.bounds item.position ∧
        isInsideHubSafeZone item.position
          (droneHubFromBounds (generateSector M rng params now).sector.bounds) = false ∧
        item.detected = false ∧ item.note = none ∧
        item.detectionRadiusMeters =
          ((generateSector M rng params now).anomalies.config.get
            item.anomalyType).detectionRadiusMeters ∧
        10 ≤ item.detectionRadiusMeters := by
  intro item h
  have h' : item ∈ generateAnomalies M rng (generateSector M rng params now).sector
      params.seed (normalizeAnomalyConfig params.anomalyConfig) := h
  obtain ⟨hrad, hdet, hnote, j, hpos⟩ :=
    generateAnomalies_mem M rng (generateSector M rng params now).sector params.seed
      (normalizeAnomalyConfig params.anomalyConfig) item h'
  have hw : (generateSector M rng params now).sector.bounds.widthMeters =
      max 100 (params.boundsKm.width * 1000) := rfl
  have hh : (generateSector M rng params now).sector.bounds.heightMeters =
      max 100 (params.boundsKm.height * 1000) := rfl
  have hw0 : 0 ≤ (generateSector M rng params now).sector.bounds.widthMeters := by
    rw [hw]; exact le_trans (by norm_num) (le_max_left _ _)
  have hh0 : 0 ≤ (generateSector M rng params now).sector.bounds.heightMeters := by
    rw [hh]; exact le_trans (by norm_num) (le_max_left _ _)
  have hcfg : (generateSector M rng params now).anomalies.config =
      normalizeAnomalyConfig params.anomalyConfig := rfl
  refine ⟨?_, ?_, hdet, hnote, ?_, ?_⟩
  · rw [hpos]
    exact samplePositionAux_inBounds M _ _ (fun n => h01 _ n) hw0 hh0 32 j
  · rw [hpos]
    exact samplePositionAux_not_inside M _ _ hPy 32 j
  · rw [hcfg]; exact hrad
  · rw [hrad]
    exact (normalizeAnomalyConfig_spec params.anomalyConfig item.anomalyType).2

/-- C6: for every seed, bounds and anomaly config with a positive hub
exclusion radius, no anomaly placed by `generateSector` lies inside (strictly
or on the boundary of) the hub exclusion circle centered on the sector
center; the fallback path's points sit at distance `radius + 5`, strictly
interior to the rectangle, so clamping never moves them back inside. -/
theorem c6_generated_anomalies_outside_hub (M : JsMath) (rng : Rng)
    (params : GeneratorParams) (now : String)
    (hPy : ∀ θ, M.cos θ ^ 2 + M.sin θ ^ 2 = 1)
    (hpos : 0 < (droneHubFromBounds (generateSector M rng params now).sector.bounds).radius) :
    ∀ item ∈ (generateSector M rng params now).anomalies.items,
      (droneHubFromBounds (generateSector M rng params now).sector.bounds).radius ^ 2 <
        (item.position.x -
          (droneHubFromBounds (generateSector M rng params now).sector.bounds).position.x) ^ 2 +
        (item.position.y -
          (droneHubFromBounds (generateSector M rng params now).sector.bounds).position.y) ^ 2 := by
  intro item h
  have h' : item ∈ generateAnomalies M rng (generateSector M rng params now).sector
      params.seed (normalizeAnomalyConfig params.anomalyConfig) := h
  obtain ⟨-, -, -, j, hpos'⟩ :=
    generateAnomalies_mem M rng (generateSector M rng params now).sector params.seed
      (normalizeAnomalyConfig params.anomalyConfig) item h'
  have hni := samplePositionAux_not_inside M (generateSector M rng params now).sector.bounds
    (rng (params.seed ++ "-anomalies")) hPy 32 j
  rw [← hpos'] at hni
  unfold isInsideHubSafeZone at hni
  rw [Bool.and_eq_false_iff] at hni
  rcases hni with hni | hni
  · rw [decide_eq_false_iff_not] at hni
    exact absurd hpos hni
  · rw [decide_eq_false_iff_not] at hni
    push_neg at hni
    exact hni

/-- Concrete `JsMath` used by the witnesses: `cos θ = 1`, `sin θ = 0`
(a valid Pythagorean pair), `hypot` exact on axis-aligned inputs. -/
def mathConst : JsMath :=
  { hypot := fun x y => if y = 0 then |x| else if x = 0 then |y| else 0
    cos := fun _ => 1
    sin := fun _ => 0
    atan2 := fun _ _ => 0
    pow := fun _ _ => 0
    pi := 0 }

/-- Concrete random streams for the witnesses: every draw is 0. -/
def rngZero : Rng := fun _ _ => 0

/-- Concrete generator input for the witnesses: seed "A", a 1 km × 1 km
sector, defaults elsewhere. -/
def paramsUnit : GeneratorParams :=
  { seed := "A"
    boundsKm := ⟨1, 1⟩
    origin := none
    name := none
    notes := none
    anomalyConfig := none }

theorem mathConst_pythagoras : ∀ θ, mathConst.cos θ ^ 2 + mathConst.sin θ ^ 2 = 1 :=
  fun _ => by norm_num [mathConst]

theorem rngZero_range : ∀ s n, 0 ≤ rngZero s n ∧ rngZero s n < 1 :=
  fun _ _ => ⟨le_refl 0, by norm_num [rngZero]⟩

/-- Witness for C6 at a concrete input (hub radius 150 on a 1 km sector). -/
theorem c6_witness :
    0 < (droneHubFromBounds (generateSector mathConst rngZero paramsUnit "T").sector.bounds).radius ∧
      ∀ item ∈ (generateSector mathConst rngZero paramsUnit "T").anomalies.items,
        (droneHubFromBounds (generateSector mathConst rngZero paramsUnit "T").sector.bounds).radius ^ 2 <
          (item.position.x -
            (droneHubFromBounds
              (generateSector mathConst rngZero paramsUnit "T").sector.bounds).position.x) ^ 2 +
          (item.position.y -
            (droneHubFromBounds
              (generateSector mathConst rngZero paramsUnit "T").sector.bounds).position.y) ^ 2 :=
  ⟨by with_unfolding_all decide,
    c6_generated_anomalies_outside_hub mathConst rngZero paramsUnit "T"
      mathConst_pythagoras (by with_unfolding_all decide)⟩

/-!
## C1: determinism of `generateSector`
-/

set_option maxRecDepth 400000

/-- Overwrite both `createdAt` timestamps of a scenario (the only places the
ambient clock reaches). -/
def withCreatedAt (s : MaritimeScenario) (t : String) : MaritimeScenario :=
  { s with
      sector := { s.sector with createdAt := t }
      metadata := s.metadata.map (fun m => { m with createdAt := t }) }

/-- C1 (amended): `generateSector` is a pure function of its arguments and the
clock reading; two calls with identical arguments and the same clock reading
yield byte-identical JSON serializations, and calls at different clock
readings differ only in the two `createdAt` fields. -/
theorem c1_determinism_modulo_timestamp (M : JsMath) (rng : Rng)
    (params : GeneratorParams) (now₁ now₂ : String) :
    withCreatedAt (generateSector M rng params now₁) now₂ =
      generateSector M rng params now₂ ∧
    (now₁ = now₂ →
      scenarioToJSON (generateSector M rng params now₁) =
        scenarioToJSON (generateSector M rng params now₂)) := by
  constructor
  · rfl
  · intro h; rw [h]

/-- Witness for C1's amended theorem at a concrete input. -/
theorem c1_witness :
    scenarioToJSON (generateSector mathConst rngZero paramsUnit "T") =
      scenarioToJSON (generateSector mathConst rngZero paramsUnit "T") :=
  (c1_determinism_modulo_timestamp mathConst rngZero paramsUnit "T" "T").2 rfl

/-- C1 (counterexample): two calls of `generateSector` with identical
arguments but different ambient clock readings ("T1" vs "T2") produce
different JSON serializations, refuting byte-identical determinism as stated
(the `createdAt` fields embed the clock). -/
theorem c1_counterexample :
    scenarioToJSON (generateSector mathConst rngZero paramsUnit "T1") ≠
      scenarioToJSON (generateSector mathConst rngZero paramsUnit "T2") := by
  with_unfolding_all decide

/-!
## Tick lemmas (C3, C4, C7)
-/

/-- `processWarnings` never touches the emergency flag. -/
theorem processWarnings_emergency (thresholds : List ℚ) (ws : WarningState)
    (drone : DroneState) (batteryPct batteryMinutesRemaining : ℚ)
    (returnMinutesRequired : JNum) (now : ℚ) :
    (processWarnings thresholds ws drone batteryPct batteryMinutesRemaining
      returnMinutesRequired now).1.emergency = ws.emergency := by
  unfold processWarnings
  suffices h : ∀ (acc : WarningState × List LogEntry),
      (thresholds.foldl _ acc).1.emergency = acc.1.emergency from h (ws, [])
  induction thresholds with
  | nil => intro acc; rfl
  | cons t ts ih =>
    intro acc
    rw [List.foldl_cons]
    rw [ih]
    split <;> rfl

/-- Every event `processWarnings` pushes is a battery warning. -/
theorem processWarnings_kinds (thresholds : List ℚ) (ws : WarningState)
    (drone : DroneState) (batteryPct batteryMinutesRemaining : ℚ)
    (returnMinutesRequired : JNum) (now : ℚ) :
    ∀ e ∈ (processWarnings thresholds ws drone batteryPct batteryMinutesRemaining
      returnMinutesRequired now).2, e.kind = .batteryWarning := by
  unfold processWarnings
  suffices h : ∀ (acc : WarningState × List LogEntry),
      (∀ e ∈ acc.2, e.kind = .batteryWarning) →
      ∀ e ∈ (thresholds.foldl _ acc).2, e.kind = .batteryWarning from
    h (ws, []) (by intro e he; simp at he)
  induction thresholds with
  | nil => intro acc hacc; exact hacc
  | cons t ts ih =>
    intro acc hacc
    rw [List.foldl_cons]
    apply ih
    split
    · intro e he
      simp only [List.mem_append, List.mem_singleton] at he
      rcases he with he | he
      · exact hacc e he
      · rw [he]
    · exact hacc

/-- The warn-state pair's emergency flag is the incoming one, whichever
branch was taken. -/


theorem ite_warn_emergency (c : Prop) [Decidable c] (thresholds : List ℚ)
    (ws : WarningState) (drone : DroneState) (a b : ℚ) (r : JNum) (now : ℚ) :
    (if c then processWarnings thresholds ws drone a b r now
      else ((ws, []) : WarningState × List LogEntry)).1.emergency = ws.emergency := by
  split
  · exact processWarnings_emergency _ _ _ _ _ _ _
  · rfl

theorem ite_warn_filter (c : Prop) [Decidable c] (thresholds : List ℚ)
    (ws : WarningState) (drone : DroneState) (a b : ℚ) (r : JNum) (now : ℚ) :
    ((if c then processWarnings thresholds ws drone a b r now
      else ((ws, []) : WarningState × List LogEntry)).2.filter
        (fun e => e.kind == LogKind.batteryEmergency)) = [] := by
  split
  · rw [List.filter_eq_nil_iff]
    intro e he
    have := processWarnings_kinds thresholds ws drone a b r now e he
    simp [this]
  · rfl

/-- The position the kinematics tick moves an emergency-returning drone
towards within one frame (the `nextPos` of the moving branch, with the hub
as forced target). -/
def rtbNextPos (M : JsMath) (hub : Vec2) (bounds : SectorBounds) (dt : ℚ)
    (drone : DroneState) : Vec2 :=
  clampToBounds bounds
    ⟨drone.position.x + (hub.x - drone.position.x) *
      (drone.speedKts * 0.514444 * dt /
        M.hypot (hub.x - drone.position.x) (hub.y - drone.position.y)),
     drone.position.y + (hub.y - drone.position.y) *
      (drone.speedKts * 0.514444 * dt /
        M.hypot (hub.x - drone.position.x) (hub.y - drone.position.y))⟩

/-- Helper for C4: whenever a non-landed drone's (drained) battery is at or
below the recomputed emergency reserve, the tick leaves it `returning` or —
exactly when it arrives at the hub — `landed`. -/

theorem tickDrone_forced_returning (M : JsMath) (thresholds : List ℚ) (buffer : ℚ)
    (hub : Vec2) (bounds : SectorBounds) (dt now : ℚ) (ws : WarningState)
    (drone : DroneState) (h00 : M.hypot 0 0 = 0)
    (hfly : drone.status ≠ DroneStatus.landed)
    (hbat : max 0 (drone.batteryMinutesRemaining - dt / 60) ≤
      computeEmergencyReserve M buffer drone) :
    (tickDrone M thresholds buffer hub bounds dt now ws drone).1.status = .returning ∨
      (tickDrone M thresholds buffer hub bounds dt now ws drone).1.status = .landed := by
  have hNR : drone.status ≠ DroneStatus.landed ∧
      max 0 (drone.batteryMinutesRemaining - (if drone.status ≠ DroneStatus.landed
        then dt / 60 else 0)) ≤ computeEmergencyReserve M buffer drone :=
    ⟨hfly, by rwa [if_pos hfly]⟩
  unfold tickDrone
  dsimp only
  rw [if_pos hfly]
  set b := max 0 (drone.batteryMinutesRemaining - dt / 60) with hbdef
  have hNR2 : drone.status ≠ DroneStatus.landed ∧
      b ≤ computeEmergencyReserve M buffer drone := ⟨hfly, hbat⟩
  simp only [if_pos hNR2]
  by_cases hs : drone.speedKts * 0.514444 ≤ 0
  · rw [if_pos hs]
    left; rfl
  · rw [if_neg hs]
    by_cases hd : M.hypot (hub.x - drone.position.x) (hub.y - drone.position.y) < 0.01
    · rw [if_pos hd]
      rw [sub_self, sub_self, h00]
      rw [if_pos (by norm_num : (0:ℚ) < 1)]
      right; rfl
    · rw [if_neg hd]
      by_cases hms : drone.speedKts * 0.514444 * dt ≤ 0
      · rw [if_pos hms]
        left; rfl
      · rw [if_neg hms]
        by_cases hfr : M.hypot (hub.x - drone.position.x) (hub.y - drone.position.y) ≤
            drone.speedKts * 0.514444 * dt
        · rw [if_pos hfr]
          rw [if_pos (Or.inl (le_refl (1:ℚ)))]
          rw [sub_self, sub_self, h00]
          rw [if_pos (by norm_num : (0:ℚ) < 1)]
          right; rfl
        · rw [if_neg hfr]
          split
          · rw [sub_self, sub_self, h00]
            rw [if_pos (by norm_num : (0:ℚ) < 1)]
            right; rfl
          · left; rfl

/-- A zero-speed drone holds its position during a tick (every zero-speed
branch of the source returns the old position). -/

theorem tickDrone_zero_speed_position (M : JsMath) (thresholds : List ℚ) (buffer : ℚ)
    (hub : Vec2) (bounds : SectorBounds) (dt now : ℚ) (ws : WarningState)
    (drone : DroneState) (hsp : drone.speedKts = 0) :
    (tickDrone M thresholds buffer hub bounds dt now ws drone).1.position = drone.position := by
  have hs0 : drone.speedKts * 0.514444 ≤ 0 := by rw [hsp]; norm_num
  unfold tickDrone
  dsimp only
  simp only [if_pos hs0]
  repeat first | rfl | split


theorem planCoveragePaths_zero_spacing (M : JsMath) (cells : List VoronoiCell)
    (s o : ℚ) (hs : s ≤ 0) : planCoveragePaths M cells s o = [] := by
  unfold planCoveragePaths
  rw [if_pos hs]

theorem planCoveragePaths_zero_area (M : JsMath) (cells : List VoronoiCell)
    (s o : ℚ) : ∀ plan ∈ planCoveragePaths M cells s o,
      polygonArea plan.polygon = 0 → plan.completenessPct = 0 := by
  intro plan hmem harea
  unfold planCoveragePaths at hmem
  by_cases hsp : s ≤ 0
  · rw [if_pos hsp] at hmem
    simp at hmem
  · rw [if_neg hsp] at hmem
    rw [List.mem_filter] at hmem
    obtain ⟨hm, -⟩ := hmem
    rw [List.mem_map] at hm
    obtain ⟨cell, -, rfl⟩ := hm
    dsimp only at harea ⊢
    rw [harea]
    rw [if_neg (lt_irrefl 0)]
    norm_num [jsRound]

theorem computeEmergencyReserve_floor (M : JsMath) (buffer : ℚ) (drone : DroneState) :
    droneHubReturnReserveMinutes ≤ computeEmergencyReserve M buffer drone := by
  unfold computeEmergencyReserve
  split
  · exact le_refl _
  · exact le_max_right _ _

theorem computeReturnMinutes_zero_speed (M : JsMath) (drone : DroneState)
    (hsp : drone.speedKts = 0) : computeReturnMinutes M drone = .posInf := by
  unfold computeReturnMinutes
  rw [if_pos (by rw [hsp]; norm_num)]

/-- C3 (amended): at a tick where a flying drone's drained battery is at or
below the recomputed emergency reserve, and the drone is moving (positive
speed, positive step) and does not arrive at the hub within the tick, the
tick sets status `returning`, overrides the target to the hub, clears the
waypoint queue, leaves the per-drone emergency flag set, and emits exactly
one battery-emergency event if the flag was not yet set and none if it was
(so the event fires once per sortie). -/
theorem c3_auto_rtb_forces_return (M : JsMath) (thresholds : List ℚ) (buffer : ℚ)
    (hub : Vec2) (bounds : SectorBounds) (dt now : ℚ) (ws : WarningState)
    (drone : DroneState)
    (hfly : drone.status ≠ DroneStatus.landed)
    (hbat : max 0 (drone.batteryMinutesRemaining - dt / 60) ≤
      computeEmergencyReserve M buffer drone)
    (hs : ¬ drone.speedKts * 0.514444 ≤ 0)
    (hd : ¬ M.hypot (hub.x - drone.position.x) (hub.y - drone.position.y) < 0.01)
    (hms : ¬ drone.speedKts * 0.514444 * dt ≤ 0)
    (hfr : ¬ M.hypot (hub.x - drone.position.x) (hub.y - drone.position.y) ≤
      drone.speedKts * 0.514444 * dt)
    (hfrac1 : ¬ (1:ℚ) ≤ drone.speedKts * 0.514444 * dt /
      M.hypot (hub.x - drone.position.x) (hub.y - drone.position.y))
    (hfar : ¬ M.hypot (hub.x - (rtbNextPos M hub bounds dt drone).x)
      (hub.y - (rtbNextPos M hub bounds dt drone).y) < 0.1) :
    (tickDrone M thresholds buffer hub bounds dt now ws drone).1.status = .returning ∧
    (tickDrone M thresholds buffer hub bounds dt now ws drone).1.targetPosition = some hub ∧
    (tickDrone M thresholds buffer hub bounds dt now ws drone).1.waypoints = [] ∧
    (tickDrone M thresholds buffer hub bounds dt now ws drone).2.1.emergency = true ∧
    ((tickDrone M thresholds buffer hub bounds dt now ws drone).2.2.filter
        (fun e => e.kind == LogKind.batteryEmergency)).length =
      (if ws.emergency then 0 else 1) := by
  simp only [rtbNextPos, clampToBounds] at hfar
  unfold tickDrone
  dsimp only
  rw [if_pos hfly]
  set b := max 0 (drone.batteryMinutesRemaining - dt / 60) with hbdef
  have hNR2 : drone.status ≠ DroneStatus.landed ∧
      b ≤ computeEmergencyReserve M buffer drone := ⟨hfly, hbat⟩
  simp only [if_pos hNR2]
  rw [if_neg hs, if_neg hd, if_neg hms, if_neg hfr]
  rw [if_neg (not_or.mpr ⟨hfrac1, by simpa [clampToBounds] using hfar⟩)]
  refine ⟨rfl, rfl, rfl, ?_, ?_⟩
  · simp only [ite_warn_emergency]
    by_cases hwe : ws.emergency = false
    · rw [if_pos (show drone.status ≠ DroneStatus.landed ∧
        (drone.status ≠ DroneStatus.landed ∧ b ≤ computeEmergencyReserve M buffer drone) ∧
        ws.emergency = false from ⟨hfly, hNR2, hwe⟩)]
    · rw [if_neg (fun h => hwe h.2.2)]
      simp only [ite_warn_emergency]
      exact (Bool.not_eq_false _).mp hwe
  · simp only [ite_warn_emergency]
    by_cases hwe : ws.emergency = false
    · rw [if_pos (show drone.status ≠ DroneStatus.landed ∧
        (drone.status ≠ DroneStatus.landed ∧ b ≤ computeEmergencyReserve M buffer drone) ∧
        ws.emergency = false from ⟨hfly, hNR2, hwe⟩)]
      rw [if_neg (by simp [hwe] : ¬ ws.emergency = true)]
      dsimp only
      rw [List.filter_append]
      simp only [ite_warn_filter]
      simp [List.filter]
    · rw [if_neg (show ¬ (drone.status ≠ DroneStatus.landed ∧
        (drone.status ≠ DroneStatus.landed ∧ b ≤ computeEmergencyReserve M buffer drone) ∧
        ws.emergency = false) from fun h => hwe h.2.2)]
      rw [if_pos ((Bool.not_eq_false _).mp hwe)]
      dsimp only
      rw [List.append_nil, ite_warn_filter]
      rfl


/-- A large test sector for the drone-operation witnesses. -/
def testBounds : SectorBounds := ⟨⟨-5000, -5000⟩, 10000, 10000⟩

/-- A low-battery drone en route away from the hub (home at the origin). -/
def droneLowBattery : DroneState :=
  { id := "D1"
    callsign := "DR-01"
    position := ⟨100, 0⟩
    headingDeg := 0
    status := .enroute
    speedKts := 10
    batteryPct := 2.5
    batteryLifeMinutes := 40
    batteryMinutesRemaining := 1
    homePosition := ⟨0, 0⟩
    lastUpdate := 0
    targetPosition := some ⟨200, 0⟩
    waypoints := [⟨300, 0⟩]
    coveragePlan := none
    returnMinutesRequired := .num 0
    emergencyReserveMinutes := 0 }

/-- The same drone with its speed set to 0 by the operator. -/
def droneZeroSpeed : DroneState := { droneLowBattery with speedKts := 0 }

/-- The same drone already in forced-return state. -/
def droneReturning : DroneState := { droneLowBattery with status := .returning }

/-- C3 (counterexample): a zero-speed drone whose battery is at or below the
emergency reserve gets status `returning` from the tick, but — contrary to
the claim — its active target is NOT overridden to the hub and its waypoint
queue is NOT cleared (the zero-speed early return skips both). -/
theorem c3_counterexample :
    droneZeroSpeed.status ≠ DroneStatus.landed ∧
    (tickDrone mathConst [] 2 ⟨0, 0⟩ testBounds 1 5 ⟨[], false⟩ droneZeroSpeed).1.status =
      DroneStatus.returning ∧
    droneZeroSpeed.batteryMinutesRemaining ≤
      (tickDrone mathConst [] 2 ⟨0, 0⟩ testBounds 1 5 ⟨[], false⟩
        droneZeroSpeed).1.emergencyReserveMinutes ∧
    (tickDrone mathConst [] 2 ⟨0, 0⟩ testBounds 1 5 ⟨[], false⟩
      droneZeroSpeed).1.targetPosition = some ⟨200, 0⟩ ∧
    (tickDrone mathConst [] 2 ⟨0, 0⟩ testBounds 1 5 ⟨[], false⟩
      droneZeroSpeed).1.targetPosition ≠ some ⟨0, 0⟩ ∧
    (tickDrone mathConst [] 2 ⟨0, 0⟩ testBounds 1 5 ⟨[], false⟩
      droneZeroSpeed).1.waypoints = [⟨300, 0⟩] := by
  with_unfolding_all decide

/-- Witness for C3's amended theorem on a concrete moving drone. -/
theorem c3_witness :
    max 0 (droneLowBattery.batteryMinutesRemaining - 1 / 60) ≤
      computeEmergencyReserve mathConst 2 droneLowBattery ∧
    ((tickDrone mathConst [] 2 ⟨0, 0⟩ testBounds 1 5 ⟨[], false⟩ droneLowBattery).1.status =
        DroneStatus.returning ∧
      (tickDrone mathConst [] 2 ⟨0, 0⟩ testBounds 1 5 ⟨[], false⟩
        droneLowBattery).1.targetPosition = some ⟨0, 0⟩ ∧
      (tickDrone mathConst [] 2 ⟨0, 0⟩ testBounds 1 5 ⟨[], false⟩
        droneLowBattery).1.waypoints = [] ∧
      (tickDrone mathConst [] 2 ⟨0, 0⟩ testBounds 1 5 ⟨[], false⟩
        droneLowBattery).2.1.emergency = true ∧
      ((tickDrone mathConst [] 2 ⟨0, 0⟩ testBounds 1 5 ⟨[], false⟩
          droneLowBattery).2.2.filter
            (fun e => e.kind == LogKind.batteryEmergency)).length = 1) :=
  ⟨by with_unfolding_all decide,
    c3_auto_rtb_forces_return mathConst [] 2 ⟨0, 0⟩ testBounds 1 5 ⟨[], false⟩ droneLowBattery
      (by with_unfolding_all decide) (by with_unfolding_all decide)
      (by with_unfolding_all decide) (by with_unfolding_all decide)
      (by with_unfolding_all decide) (by with_unfolding_all decide)
      (by with_unfolding_all decide) (by with_unfolding_all decide)⟩

/-- C4 (amended): `handleSetWaypoint` in replace mode sets any selected
drone's status to `enroute` — it does cancel `returning` transiently — but
the next kinematics tick recomputes the emergency condition, and while the
battery remains at or below the recomputed reserve a non-landed drone's
status is forced back to `returning` (or to `landed` exactly when it
arrives at the hub). -/
theorem c4_returning_reforced_by_tick :
    (∀ (bounds : SectorBounds) (point : Vec2) (now : ℚ) (drone : DroneState),
      (applySetWaypoint bounds true false point now drone).status = .enroute) ∧
    (∀ (M : JsMath) (thresholds : List ℚ) (buffer : ℚ) (hub : Vec2)
        (bounds : SectorBounds) (dt now : ℚ) (ws : WarningState) (drone : DroneState),
      M.hypot 0 0 = 0 →
      drone.status ≠ DroneStatus.landed →
      max 0 (drone.batteryMinutesRemaining - dt / 60) ≤
        computeEmergencyReserve M buffer drone →
      (tickDrone M thresholds buffer hub bounds dt now ws drone).1.status = .returning ∨
        (tickDrone M thresholds buffer hub bounds dt now ws drone).1.status = .landed) := by
  constructor
  · intro bounds point now drone
    rfl
  · intro M thresholds buffer hub bounds dt now ws drone h00 hfly hbat
    exact tickDrone_forced_returning M thresholds buffer hub bounds dt now ws drone h00 hfly hbat

/-- C4 (counterexample): a waypoint assignment to a `returning` drone sets
its status to `enroute`, cancelling the returning status until the next
tick — refuting the claim that it cannot. -/
theorem c4_counterexample :
    droneReturning.status = DroneStatus.returning ∧
    (applySetWaypoint testBounds true false ⟨50, 50⟩ 7 droneReturning).status =
      DroneStatus.enroute ∧
    (applySetWaypoint testBounds true false ⟨50, 50⟩ 7 droneReturning).status ≠
      DroneStatus.returning := by
  with_unfolding_all decide

/-- Witness for C4's amended theorem. -/
theorem c4_witness :
    (applySetWaypoint testBounds true false ⟨50, 50⟩ 7 droneLowBattery).status =
      DroneStatus.enroute ∧
    ((tickDrone mathConst [] 2 ⟨0, 0⟩ testBounds 1 5 ⟨[], false⟩ droneLowBattery).1.status =
        DroneStatus.returning ∨
      (tickDrone mathConst [] 2 ⟨0, 0⟩ testBounds 1 5 ⟨[], false⟩ droneLowBattery).1.status =
        DroneStatus.landed) :=
  ⟨c4_returning_reforced_by_tick.1 testBounds ⟨50, 50⟩ 7 droneLowBattery,
    c4_returning_reforced_by_tick.2 mathConst [] 2 ⟨0, 0⟩ testBounds 1 5 ⟨[], false⟩
      droneLowBattery (by with_unfolding_all decide) (by with_unfolding_all decide)
      (by with_unfolding_all decide)⟩

/-- C7 (amended): the division guards hold — a zero-speed drone holds its
position during a tick, `planCoveragePaths` with nonpositive spacing returns
no plans, a zero-area polygon yields completeness 0, and the stored
`emergencyReserveMinutes` is a finite value floored at the reserve
constant — but `returnMinutesRequired` is `Number.POSITIVE_INFINITY` for a
zero-speed drone (see the counterexample), so the no-Infinity part of the
claim fails. -/
theorem c7_division_guards :
    (∀ (M : JsMath) (thresholds : List ℚ) (buffer : ℚ) (hub : Vec2)
        (bounds : SectorBounds) (dt now : ℚ) (ws : WarningState) (drone : DroneState),
      drone.speedKts = 0 →
      (tickDrone M thresholds buffer hub bounds dt now ws drone).1.position =
        drone.position) ∧
    (∀ (M : JsMath) (cells : List VoronoiCell) (s o : ℚ), s ≤ 0 →
      planCoveragePaths M cells s o = []) ∧
    (∀ (M : JsMath) (cells : List VoronoiCell) (s o : ℚ),
      ∀ plan ∈ planCoveragePaths M cells s o,
        polygonArea plan.polygon = 0 → plan.completenessPct = 0) ∧
    (∀ (M : JsMath) (buffer : ℚ) (drone : DroneState),
      droneHubReturnReserveMinutes ≤ computeEmergencyReserve M buffer drone) ∧
    (∀ (M : JsMath) (drone : DroneState), drone.speedKts = 0 →
      computeReturnMinutes M drone = .posInf) :=
  ⟨fun M th bf hub bounds dt now ws drone h =>
      tickDrone_zero_speed_position M th bf hub bounds dt now ws drone h,
    fun M cells s o h => planCoveragePaths_zero_spacing M cells s o h,
    fun M cells s o => planCoveragePaths_zero_area M cells s o,
    fun M bf drone => computeEmergencyReserve_floor M bf drone,
    fun M drone h => computeReturnMinutes_zero_speed M drone h⟩

/-- C7 (counterexample): the kinematics tick stores positive Infinity in a
zero-speed drone's `returnMinutesRequired` field, refuting the claim that no
Infinity value is ever written into drone state. -/
theorem c7_counterexample :
    (tickDrone mathConst [] 2 ⟨0, 0⟩ testBounds 1 5 ⟨[], false⟩
        droneZeroSpeed).1.returnMinutesRequired = JNum.posInf ∧
    (tickDrone mathConst [] 2 ⟨0, 0⟩ testBounds 1 5 ⟨[], false⟩
        droneZeroSpeed).1.emergencyReserveMinutes = droneHubReturnReserveMinutes := by
  with_unfolding_all decide

/-- Witness for C7's amended theorem. -/
theorem c7_witness :
    droneZeroSpeed.speedKts = 0 ∧
    (tickDrone mathConst [] 2 ⟨0, 0⟩ testBounds 1 5 ⟨[], false⟩ droneZeroSpeed).1.position =
      droneZeroSpeed.position :=
  ⟨by with_unfolding_all decide,
    c7_division_guards.1 mathConst [] 2 ⟨0, 0⟩ testBounds 1 5 ⟨[], false⟩ droneZeroSpeed
      (by with_unfolding_all decide)⟩



/-!
## Round-trip lemmas for `validateScenario` (claims about the JSON round trip)
-/


theorem find_tag (t : AnomalyType) :
    anomalyTypeOrder.find? (fun u => decide (some t.tag = some u.tag)) = some t := by
  cases t <;> rfl

theorem sanitizeOneItem_keep (M : JsMath) (bounds : SectorBounds)
    (stream : ℕ → ℚ) (config : AnomalySettings) (idx : ℕ) (a : AnomalyInstance) (i : ℕ)
    (hin : inBounds bounds a.position)
    (hout : isInsideHubSafeZone a.position (droneHubFromBounds bounds) = false)
    (hrad : 10 ≤ a.detectionRadiusMeters) :
    sanitizeOneItem M bounds (droneHubFromBounds bounds) stream config idx
      (payloadItemOf a) i = (some a, i) := by
  obtain ⟨h1, h2, h3, h4⟩ := hin
  unfold sanitizeOneItem payloadItemOf
  dsimp only
  rw [show (anomalyTypeOrder.find? fun u => some a.anomalyType.tag = some u.tag) =
      some a.anomalyType from find_tag a.anomalyType]
  dsimp only
  rw [clamp_eq_self _ _ _ h1 h2, clamp_eq_self _ _ _ h3 h4]
  have hc : (⟨a.position.x, a.position.y⟩ : Vec2) = a.position := rfl
  rw [hc, hout]
  rw [if_neg (by simp : ¬ (false = true))]
  simp only [Option.getD_some]
  rw [max_eq_right hrad]

theorem sanitizeItemsPass_keep (M : JsMath) (bounds : SectorBounds)
    (stream : ℕ → ℚ) (config : AnomalySettings) (l : List AnomalyInstance)
    (h : ∀ a ∈ l, inBounds bounds a.position ∧
      isInsideHubSafeZone a.position (droneHubFromBounds bounds) = false ∧
      10 ≤ a.detectionRadiusMeters) :
    ∀ idx i, sanitizeItemsPass M bounds (droneHubFromBounds bounds) stream config
      (l.map payloadItemOf) idx i = l := by
  induction l with
  | nil => intro idx i; rfl
  | cons a rest ih =>
    intro idx i
    obtain ⟨hin, hout, hrad⟩ := h a (List.mem_cons_self a rest)
    rw [List.map_cons]
    rw [sanitizeItemsPass]
    rw [sanitizeOneItem_keep M bounds stream config idx a i hin hout hrad]
    dsimp only
    rw [ih (fun b hb => h b (List.mem_cons_of_mem a hb)) (idx + 1) i]

theorem sanitizeAnomalyItems_keep (M : JsMath) (rng : Rng) (sector : MaritimeSector)
    (seed : String) (config : AnomalySettings) (l : List AnomalyInstance)
    (h : ∀ a ∈ l, inBounds sector.bounds a.position ∧
      isInsideHubSafeZone a.position (droneHubFromBounds sector.bounds) = false ∧
      10 ≤ a.detectionRadiusMeters)
    (hlen : (l.length : ℚ) = totalAnomalyCount config) :
    sanitizeAnomalyItems M rng (some (l.map payloadItemOf)) sector seed config = l := by
  unfold sanitizeAnomalyItems
  dsimp only
  rw [sanitizeItemsPass_keep M sector.bounds (rng (seed ++ "-anomalies-sanitize")) config l h 0 0]
  rw [if_neg (by rw [hlen]; exact fun hc => hc rfl)]
  have : ∀ a ∈ l, (fun item => { item with
      detectionRadiusMeters :=
        if item.detectionRadiusMeters = 0 then (config.get item.anomalyType).detectionRadiusMeters
        else item.detectionRadiusMeters }) a = a := by
    intro a ha
    obtain ⟨-, -, hrad⟩ := h a ha
    dsimp only
    rw [if_neg (by intro h0; rw [h0] at hrad; norm_num at hrad)]
  rw [List.map_congr_left this, List.map_id']

theorem jsRound_intCast (z : ℤ) : jsRound ((z : ℚ)) = z := by
  unfold jsRound
  rw [add_comm, Int.floor_add_int]
  norm_num

theorem normalizeOneConfig_intCast (z w : ℤ) (hz : 0 ≤ z) (hw : 10 ≤ w)
    (dflt : AnomalyConfig) :
    normalizeOneConfig (some ⟨some ((z : ℤ) : ℚ), some ((w : ℤ) : ℚ)⟩) dflt =
      ⟨((z : ℤ) : ℚ), ((w : ℤ) : ℚ)⟩ := by
  unfold normalizeOneConfig
  simp only [Option.some_bind, Option.getD_some]
  rw [jsRound_intCast, jsRound_intCast, max_eq_right hz, max_eq_right hw]

theorem normalizeOneConfig_idem (inc : Option AnomalyConfigPatch)
    (dflt dflt2 : AnomalyConfig) :
    normalizeOneConfig (some ⟨some (normalizeOneConfig inc dflt).count,
      some (normalizeOneConfig inc dflt).detectionRadiusMeters⟩) dflt2 =
      normalizeOneConfig inc dflt := by
  have h1 : (normalizeOneConfig inc dflt).count =
      ((max 0 (jsRound ((inc.bind (·.count)).getD dflt.count)) : ℤ) : ℚ) := rfl
  have h2 : (normalizeOneConfig inc dflt).detectionRadiusMeters =
      ((max 10 (jsRound ((inc.bind (·.detectionRadiusMeters)).getD
        dflt.detectionRadiusMeters)) : ℤ) : ℚ) := rfl
  rw [h1, h2, normalizeOneConfig_intCast _ _ (le_max_left _ _) (le_max_left _ _)]
  rfl

theorem normalizeAnomalyConfig_idem (c : Option AnomalySettingsPatch) :
    normalizeAnomalyConfig (some (patchOfSettings (normalizeAnomalyConfig c))) =
      normalizeAnomalyConfig c := by
  unfold normalizeAnomalyConfig patchOfSettings
  dsimp only [AnomalySettings.get, AnomalySettingsPatch.get]
  rw [Option.some_bind, Option.some_bind, Option.some_bind, Option.some_bind]
  dsimp only
  congr 1 <;> exact normalizeOneConfig_idem _ _ _


/-- `validateScenario` is a right inverse of the payload embedding on
scenarios that are already in normal form: version 1, nonempty seed agreeing
with the sector's, a normalization-stable anomaly config, and items that are
in bounds, outside the hub zone, with radii at least 10 and the configured
total count. -/
theorem validateScenario_payloadOf (M : JsMath) (rng : Rng) (s : MaritimeScenario)
    (now : String)
    (hv : s.version = 1)
    (hs : s.seed ≠ "")
    (hsec : s.sector.seed = s.seed)
    (hcfg : normalizeAnomalyConfig (some (patchOfSettings s.anomalies.config)) =
      s.anomalies.config)
    (hitems : ∀ a ∈ s.anomalies.items, inBounds s.sector.bounds a.position ∧
      isInsideHubSafeZone a.position (droneHubFromBounds s.sector.bounds) = false ∧
      10 ≤ a.detectionRadiusMeters)
    (hlen : (s.anomalies.items.length : ℚ) = totalAnomalyCount s.anomalies.config) :
    validateScenario M rng (payloadOfScenario s) now = .ok s := by
  obtain ⟨v, nm, sd, sec, an, meta⟩ := s
  obtain ⟨sid, sname, sseed, bnds, conds, wat, created⟩ := sec
  obtain ⟨orig, w, h⟩ := bnds
  obtain ⟨ox, oy⟩ := orig
  obtain ⟨cs, ck, cv, ct, cd⟩ := conds
  obtain ⟨wts, wns, wds, bc, hc, wstr⟩ := wat
  obtain ⟨bc1, bc2, bc3⟩ := bc
  obtain ⟨hc1, hc2, hc3⟩ := hc
  obtain ⟨cfg, items⟩ := an
  dsimp only at hv hsec hcfg hitems hlen ⊢
  subst hv
  subst hsec
  unfold payloadOfScenario validateScenario
  dsimp only
  rw [if_neg (show ¬ (some (1:ℚ) ≠ some 1) from fun hne => hne rfl)]
  rw [if_neg hs]
  simp only [Option.getD_some]
  rw [hcfg]
  rw [sanitizeAnomalyItems_keep M rng
    ⟨sid, sname, sseed, ⟨⟨ox, oy⟩, w, h⟩, ⟨cs, ck, cv, ct, cd⟩,
      ⟨wts, wns, wds, ⟨bc1, bc2, bc3⟩, ⟨hc1, hc2, hc3⟩, wstr⟩, created⟩
    sseed cfg items hitems hlen]

/-- C2 (amended): for every generator input whose seed is nonempty,
`validateScenario` on the JSON round-trip image of `generateSector`'s output
succeeds and reproduces the generated scenario exactly (hence the same
sector, the same anomaly count per type, and the same positions).  A
generator input with the empty seed is rejected by the validator. -/
theorem c2_roundtrip_validate (M : JsMath) (rng : Rng) (params : GeneratorParams)
    (now now' : String)
    (hPy : ∀ θ, M.cos θ ^ 2 + M.sin θ ^ 2 = 1)
    (h01 : ∀ s n, 0 ≤ rng s n ∧ rng s n < 1)
    (hseed : params.seed ≠ "") :
    validateScenario M rng (payloadOfScenario (generateSector M rng params now)) now' =
      .ok (generateSector M rng params now) := by
  apply validateScenario_payloadOf
  · rfl
  · exact hseed
  · rfl
  · exact normalizeAnomalyConfig_idem params.anomalyConfig
  · intro a ha
    obtain ⟨h1, h2, -, -, -, h6⟩ := generateSector_anomaly_spec M rng params now hPy h01 a ha
    exact ⟨h1, h2, h6⟩
  · exact generateAnomalies_length_normalized M rng (generateSector M rng params now).sector
      params.seed params.anomalyConfig

/-- Generator input with the empty seed (accepted by `generateSector`,
rejected by `validateScenario`). -/
def paramsEmptySeed : GeneratorParams := { paramsUnit with seed := "" }

/-- C2 (counterexample): the scenario generated from the empty seed does not
round-trip — `validateScenario` rejects its payload with the missing-seed
error, because JS treats the empty string as falsy in `if (!seed ...)`. -/
theorem c2_counterexample :
    validateScenario mathConst rngZero
      (payloadOfScenario (generateSector mathConst rngZero paramsEmptySeed "T")) "T" =
      .error "Scenario missing seed or sector definition" := by
  with_unfolding_all rfl

/-- Witness for C2's amended theorem at a concrete input. -/
theorem c2_witness :
    validateScenario mathConst rngZero
      (payloadOfScenario (generateSector mathConst rngZero paramsUnit "T")) "T2" =
      .ok (generateSector mathConst rngZero paramsUnit "T") :=
  c2_roundtrip_validate mathConst rngZero paramsUnit "T" "T2" mathConst_pythagoras
    rngZero_range (by decide)


/-!
## Sanitized items stay in bounds and outside the hub zone (C10)
-/


theorem sanitizeOneItem_props (M : JsMath) (bounds : SectorBounds) (stream : ℕ → ℚ)
    (config : AnomalySettings) (idx : ℕ) (item : PayloadItem) (i : ℕ)
    (a : AnomalyInstance) (i' : ℕ)
    (hPy : ∀ θ, M.cos θ ^ 2 + M.sin θ ^ 2 = 1)
    (h01 : ∀ n, 0 ≤ stream n ∧ stream n < 1)
    (hw : 0 ≤ bounds.widthMeters) (hh : 0 ≤ bounds.heightMeters)
    (heq : sanitizeOneItem M bounds (droneHubFromBounds bounds) stream config idx item i =
      (some a, i')) :
    inBounds bounds a.position ∧
      isInsideHubSafeZone a.position (droneHubFromBounds bounds) = false := by
  unfold sanitizeOneItem at heq
  cases hfind : anomalyTypeOrder.find? (fun t => item.tag = some t.tag) with
  | none =>
    rw [hfind] at heq
    exact absurd heq (by simp)
  | some t =>
    rw [hfind] at heq
    cases hx : item.posX with
    | none =>
      rw [hx] at heq
      exact absurd heq (by simp)
    | some x =>
      cases hy : item.posY with
      | none =>
        rw [hx, hy] at heq
        exact absurd heq (by simp)
      | some y =>
        rw [hx, hy] at heq
        dsimp only at heq
        by_cases hin : isInsideHubSafeZone
            ⟨clamp x bounds.origin.x (bounds.origin.x + bounds.widthMeters),
             clamp y bounds.origin.y (bounds.origin.y + bounds.heightMeters)⟩
            (droneHubFromBounds bounds) = true
        · rw [if_pos hin] at heq
          rw [Prod.mk.injEq, Option.some.injEq] at heq
          obtain ⟨h1, -⟩ := heq
          subst h1
          exact ⟨samplePositionAux_inBounds M bounds stream h01 hw hh 32 i,
            samplePositionAux_not_inside M bounds stream hPy 32 i⟩
        · rw [if_neg hin] at heq
          rw [Prod.mk.injEq, Option.some.injEq] at heq
          obtain ⟨h1, -⟩ := heq
          subst h1
          refine ⟨⟨le_clamp _ _ _ (by linarith), clamp_le _ _ _,
            le_clamp _ _ _ (by linarith), clamp_le _ _ _⟩, eq_false_of_ne_true hin⟩

theorem sanitizeItemsPass_props (M : JsMath) (bounds : SectorBounds) (stream : ℕ → ℚ)
    (config : AnomalySettings)
    (hPy : ∀ θ, M.cos θ ^ 2 + M.sin θ ^ 2 = 1)
    (h01 : ∀ n, 0 ≤ stream n ∧ stream n < 1)
    (hw : 0 ≤ bounds.widthMeters) (hh : 0 ≤ bounds.heightMeters) :
    ∀ (l : List PayloadItem) (idx i : ℕ) (a : AnomalyInstance),
      a ∈ sanitizeItemsPass M bounds (droneHubFromBounds bounds) stream config l idx i →
      inBounds bounds a.position ∧
        isInsideHubSafeZone a.position (droneHubFromBounds bounds) = false := by
  intro l
  induction l with
  | nil => intro idx i a ha; simp [sanitizeItemsPass] at ha
  | cons item rest ih =>
    intro idx i a ha
    rw [sanitizeItemsPass] at ha
    rcases hone : sanitizeOneItem M bounds (droneHubFromBounds bounds) stream config idx item i
      with ⟨o, i₁⟩
    rw [hone] at ha
    cases o with
    | none =>
      dsimp only at ha
      exact ih _ _ a ha
    | some b =>
      dsimp only at ha
      rcases List.mem_cons.mp ha with h | h
      · subst h
        exact sanitizeOneItem_props M bounds stream config idx item i a i₁ hPy h01 hw hh hone
      · exact ih _ _ a h

theorem sanitizeAnomalyItems_props (M : JsMath) (rng : Rng)
    (payloadItems : Option (List PayloadItem)) (sector : MaritimeSector) (seed : String)
    (config : AnomalySettings)
    (hPy : ∀ θ, M.cos θ ^ 2 + M.sin θ ^ 2 = 1)
    (h01 : ∀ s n, 0 ≤ rng s n ∧ rng s n < 1)
    (hw : 0 ≤ sector.bounds.widthMeters) (hh : 0 ≤ sector.bounds.heightMeters) :
    ∀ a ∈ sanitizeAnomalyItems M rng payloadItems sector seed config,
      inBounds sector.bounds a.position ∧
        isInsideHubSafeZone a.position (droneHubFromBounds sector.bounds) = false := by
  intro a ha
  unfold sanitizeAnomalyItems at ha
  dsimp only at ha
  split at ha
  · obtain ⟨-, -, -, j, hpos⟩ := generateAnomalies_mem M rng sector seed config a ha
    rw [hpos]
    exact ⟨samplePositionAux_inBounds M sector.bounds _ (fun n => h01 _ n) hw hh 32 j,
      samplePositionAux_not_inside M sector.bounds _ hPy 32 j⟩
  · cases payloadItems with
    | none => simp at ha
    | some l =>
      dsimp only at ha
      rw [List.mem_map] at ha
      obtain ⟨b, hb, hba⟩ := ha
      obtain ⟨h1, h2⟩ := sanitizeItemsPass_props M sector.bounds _ config hPy
        (fun n => h01 _ n) hw hh l 0 0 b hb
      rw [← hba]
      exact ⟨h1, h2⟩

/-- Inversion of a successful `validateScenario` call: the accepted
scenario's items all come out of `sanitizeAnomalyItems`, hence (for
nonnegative accepted dimensions) lie in bounds and outside the hub zone. -/
theorem validateScenario_accepted_items_props (M : JsMath) (rng : Rng)
    (payload : ScenarioPayload) (now : String) (s : MaritimeScenario)
    (hPy : ∀ θ, M.cos θ ^ 2 + M.sin θ ^ 2 = 1)
    (h01 : ∀ st n, 0 ≤ rng st n ∧ rng st n < 1)
    (hok : validateScenario M rng payload now = .ok s)
    (hw : 0 ≤ s.sector.bounds.widthMeters)
    (hh : 0 ≤ s.sector.bounds.heightMeters) :
    ∀ a ∈ s.anomalies.items,
      inBounds s.sector.bounds a.position ∧
        isInsideHubSafeZone a.position (droneHubFromBounds s.sector.bounds) = false := by
  unfold validateScenario at hok
  split at hok
  · exact absurd hok (by simp)
  · split at hok
    · split at hok
      · exact absurd hok (by simp)
      · split at hok
        · exact absurd hok (by simp)
        · split at hok
          · split at hok
            · exact absurd hok (by simp)
            · dsimp only at hok
              rw [Except.ok.injEq] at hok
              subst hok
              exact sanitizeAnomalyItems_props M rng _ _ _ _ hPy h01 hw hh
          · exact absurd hok (by simp)
    · exact absurd hok (by simp)

/-- C10 (amended): in every scenario accepted by `validateScenario` whose
resulting sector has nonnegative width and height, every anomaly item lies
within the sector bounds and outside the hub exclusion circle
(`isInsideHubSafeZone` is false, which in particular rules out the circle
whenever the hub radius is positive).  Without the nonnegativity proviso the
property fails: the validator accepts negative dimensions, and clamping to an
inverted interval moves positions outside the rectangle. -/
theorem c10_validated_items_invariant (M : JsMath) (rng : Rng)
    (payload : ScenarioPayload) (now : String) (s : MaritimeScenario)
    (hPy : ∀ θ, M.cos θ ^ 2 + M.sin θ ^ 2 = 1)
    (h01 : ∀ st n, 0 ≤ rng st n ∧ rng st n < 1)
    (hok : validateScenario M rng payload now = .ok s)
    (hw : 0 ≤ s.sector.bounds.widthMeters)
    (hh : 0 ≤ s.sector.bounds.heightMeters) :
    ∀ a ∈ s.anomalies.items,
      inBounds s.sector.bounds a.position ∧
        isInsideHubSafeZone a.position (droneHubFromBounds s.sector.bounds) = false :=
  validateScenario_accepted_items_props M rng payload now s hPy h01 hok hw hh

/-- A payload with a negative `widthMeters` and one in-range item:
`validateScenario` accepts it without checking the sign of the dimensions. -/
def payloadNegWidth : ScenarioPayload :=
  { version := some 1
    name := some "neg"
    seed := some "S"
    sector := some
      { id := some "sec"
        name := some "sec"
        bounds := some { origin := some ⟨0, 0⟩, widthMeters := some (-100), heightMeters := some 100 }
        conditions := some
          { seaState := none, windKts := none, visibilityKm := none, surfaceTempC := none,
            description := none }
        water := none
        createdAt := some "T" }
    anomaliesConfig := some
      { personInWater := some ⟨some 1, some 10⟩
        lifeboat := some ⟨some 0, some 10⟩
        debrisField := some ⟨some 0, some 10⟩
        falsePositive := some ⟨some 0, some 10⟩ }
    anomaliesItems := some
      [ { id := some "a", tag := some "person-in-water", posX := some 50, posY := some 50,
          detected := some false, detectionRadiusMeters := some 12, note := none } ]
    metadata := none }

/-- The scenario `validateScenario` produces from `payloadNegWidth`:
the clamp to the inverted x-interval `[0, -100]` lands the item at
`x = -100`, outside the sector rectangle. -/
def c10BadScenario : MaritimeScenario :=
  { version := 1
    name := "neg"
    seed := "S"
    sector :=
      { id := "sec"
        name := "sec"
        seed := "S"
        bounds := ⟨⟨0, 0⟩, -100, 100⟩
        conditions := ⟨0, 0, 0, 0, none⟩
        water := defaultWaterSettings
        createdAt := "T" }
    anomalies :=
      { config := ⟨⟨1, 10⟩, ⟨0, 10⟩, ⟨0, 10⟩, ⟨0, 10⟩⟩
        items := [⟨"a", .personInWater, ⟨-100, 50⟩, false, 12, none⟩] }
    metadata := none }

/-- C10 (counterexample): a payload with negative sector width is accepted by
`validateScenario`, and its (clamped) anomaly item ends up outside the sector
bounds — refuting the claim as stated for arbitrary accepted scenarios. -/
theorem c10_counterexample :
    validateScenario mathConst rngZero payloadNegWidth "T" = .ok c10BadScenario ∧
      ∃ a ∈ c10BadScenario.anomalies.items,
        ¬ inBounds c10BadScenario.sector.bounds a.position := by
  constructor
  · with_unfolding_all rfl
  · with_unfolding_all decide

/-- Witness for C10's amended theorem at a concrete accepted scenario. -/
theorem c10_witness :
    validateScenario mathConst rngZero
        (payloadOfScenario (generateSector mathConst rngZero paramsUnit "T")) "T2" =
      .ok (generateSector mathConst rngZero paramsUnit "T") ∧
    (0:ℚ) ≤ (generateSector mathConst rngZero paramsUnit "T").sector.bounds.widthMeters ∧
    ∀ a ∈ (generateSector mathConst rngZero paramsUnit "T").anomalies.items,
      inBounds (generateSector mathConst rngZero paramsUnit "T").sector.bounds a.position ∧
        isInsideHubSafeZone a.position
          (droneHubFromBounds (generateSector mathConst rngZero paramsUnit "T").sector.bounds) =
          false :=
  ⟨by with_unfolding_all rfl, by with_unfolding_all decide,
    c10_validated_items_invariant mathConst rngZero
      (payloadOfScenario (generateSector mathConst rngZero paramsUnit "T")) "T2"
      (generateSector mathConst rngZero paramsUnit "T") mathConst_pythagoras rngZero_range
      (by with_unfolding_all rfl) (by with_unfolding_all decide) (by with_unfolding_all decide)⟩


/-!
## Position invariants of the core operations (C5)
-/


/-- `handleSetWaypoint` never moves the drone: every branch keeps `position`. -/
theorem applySetWaypoint_position (bounds : SectorBounds) (selected append : Bool)
    (point : Vec2) (now : ℚ) (drone : DroneState) :
    (applySetWaypoint bounds selected append point now drone).position = drone.position := by
  unfold applySetWaypoint
  repeat first | rfl | split | (dsimp only; split)


set_option maxHeartbeats 4000000

/-- Every branch of the kinematics tick either keeps the drone's position or
produces a `clampToBounds` image. -/
theorem tickDrone_position (M : JsMath) (thresholds : List ℚ) (buffer : ℚ) (hub : Vec2)
    (bounds : SectorBounds) (dtSeconds now : ℚ) (ws : WarningState) (drone : DroneState) :
    (tickDrone M thresholds buffer hub bounds dtSeconds now ws drone).1.position =
      drone.position ∨
    ∃ p, (tickDrone M thresholds buffer hub bounds dtSeconds now ws drone).1.position =
      clampToBounds bounds p := by
  rcases htick : tickDrone M thresholds buffer hub bounds dtSeconds now ws drone
    with ⟨d, ws', ev⟩
  dsimp only
  unfold tickDrone at htick
  dsimp only at htick
  set A := 0 ⊔ (drone.batteryMinutesRemaining -
    if drone.status ≠ DroneStatus.landed then dtSeconds / 60 else 0) with hA
  set E := computeEmergencyReserve M buffer drone with hE
  set R := computeReturnMinutes M drone with hR
  set B := 0 ⊔ 100 ⊓ A / drone.batteryLifeMinutes * 100 with hB
  clear_value A E R B
  clear hA hE hR hB
  cases htp : drone.targetPosition with
  | some t =>
    rw [htp] at htick
    dsimp only at htick
    repeat first
    | (rw [Prod.mk.injEq, Prod.mk.injEq] at htick
       obtain ⟨hd, -, -⟩ := htick
       subst hd
       exact Or.inl rfl)
    | (rw [Prod.mk.injEq, Prod.mk.injEq] at htick
       obtain ⟨hd, -, -⟩ := htick
       subst hd
       exact Or.inr ⟨_, rfl⟩)
    | split at htick
  | none =>
    rw [htp] at htick
    cases hwq : drone.waypoints with
    | nil =>
      rw [hwq] at htick
      dsimp only at htick
      repeat first
      | (rw [Prod.mk.injEq, Prod.mk.injEq] at htick
         obtain ⟨hd, -, -⟩ := htick
         subst hd
         exact Or.inl rfl)
      | (rw [Prod.mk.injEq, Prod.mk.injEq] at htick
         obtain ⟨hd, -, -⟩ := htick
         subst hd
         exact Or.inr ⟨_, rfl⟩)
      | split at htick
    | cons w rest =>
      rw [hwq] at htick
      dsimp only at htick
      repeat first
      | (rw [Prod.mk.injEq, Prod.mk.injEq] at htick
         obtain ⟨hd, -, -⟩ := htick
         subst hd
         exact Or.inl rfl)
      | (rw [Prod.mk.injEq, Prod.mk.injEq] at htick
         obtain ⟨hd, -, -⟩ := htick
         subst hd
         exact Or.inr ⟨_, rfl⟩)
      | split at htick


/-- Membership in `List.set`: the element is either from the original list or
the written value. -/
theorem mem_set_cases {α : Type} : ∀ (l : List α) (n : ℕ) (b a : α),
    a ∈ l.set n b → a ∈ l ∨ a = b := by
  intro l
  induction l with
  | nil => intro n b a h; simp at h
  | cons x xs ih =>
    intro n b a h
    cases n with
    | zero =>
      rcases List.mem_cons.mp h with h | h
      · exact Or.inr h
      · exact Or.inl (List.mem_cons_of_mem _ h)
    | succ n =>
      rcases List.mem_cons.mp h with h | h
      · exact Or.inl (h ▸ List.mem_cons_self _ _)
      · rcases ih n b a h with h | h
        · exact Or.inl (List.mem_cons_of_mem _ h)
        · exact Or.inr h

theorem mem_enum_snd {α : Type} : ∀ (l : List α) (k : ℕ) (p : ℕ × α),
    p ∈ l.enumFrom k → p.2 ∈ l := by
  intro l
  induction l with
  | nil => intro k p h; simp at h
  | cons x xs ih =>
    intro k p h
    rcases List.mem_cons.mp h with h | h
    · rw [h]; exact List.mem_cons_self _ _
    · exact List.mem_cons_of_mem _ (ih (k + 1) p h)

theorem detectOne_inBounds (M : JsMath) (cfg : SensorConfig) (rand : ℕ → ℚ)
    (now range : ℚ) (drone : DroneState) (idx : ℕ) (anomaly : AnomalyInstance)
    (st : DetState) (bounds : SectorBounds)
    (hano : inBounds bounds anomaly.position)
    (hst : ∀ a ∈ st.items, inBounds bounds a.position) :
    ∀ a ∈ (detectOne M cfg rand now range drone idx anomaly st).items,
      inBounds bounds a.position := by
  intro a ha
  unfold detectOne at ha
  dsimp only at ha
  repeat' split at ha
  all_goals try dsimp only at ha
  all_goals
    first
    | exact hst a ha
    | (rcases mem_set_cases _ _ _ _ ha with h | h
       · exact hst a h
       · rw [h]; exact hano)

theorem falsePositiveStep_inBounds (M : JsMath) (tokenOf : ℚ → String)
    (cfg : SensorConfig) (config : AnomalySettings) (bounds : SectorBounds)
    (rand : ℕ → ℚ) (now range : ℚ) (drone : DroneState) (st : DetState)
    (hw : 0 ≤ bounds.widthMeters) (hh : 0 ≤ bounds.heightMeters)
    (hst : ∀ a ∈ st.items, inBounds bounds a.position) :
    ∀ a ∈ (falsePositiveStep M tokenOf cfg config bounds rand now range drone st).items,
      inBounds bounds a.position := by
  intro a ha
  unfold falsePositiveStep at ha
  dsimp only at ha
  split at ha
  · dsimp only at ha
    rcases List.mem_append.mp ha with h | h
    · exact hst a h
    · rw [List.mem_singleton.mp h]
      exact clampToBounds_inBounds bounds _ hw hh
  · dsimp only at ha
    exact hst a ha

theorem detectDrone_inBounds (M : JsMath) (tokenOf : ℚ → String) (cfg : SensorConfig)
    (config : AnomalySettings) (bounds : SectorBounds) (origItems : List AnomalyInstance)
    (rand : ℕ → ℚ) (now range : ℚ) (drone : DroneState) (st : DetState)
    (hw : 0 ≤ bounds.widthMeters) (hh : 0 ≤ bounds.heightMeters)
    (horig : ∀ a ∈ origItems, inBounds bounds a.position)
    (hst : ∀ a ∈ st.items, inBounds bounds a.position) :
    ∀ a ∈ (detectDrone M tokenOf cfg config bounds origItems rand now range drone st).items,
      inBounds bounds a.position := by
  unfold detectDrone
  apply falsePositiveStep_inBounds M tokenOf cfg config bounds rand now range drone _ hw hh
  have key : ∀ (l : List (ℕ × AnomalyInstance)) (st : DetState),
      (∀ p ∈ l, inBounds bounds (p.2 : AnomalyInstance).position) →
      (∀ a ∈ st.items, inBounds bounds a.position) →
      ∀ a ∈ (l.foldl (fun acc (p : ℕ × AnomalyInstance) =>
          detectOne M cfg rand now range drone p.1 p.2 acc) st).items,
        inBounds bounds a.position := by
    intro l
    induction l with
    | nil => intro st _ hst a ha; exact hst a ha
    | cons p rest ih =>
      intro st hl hst a ha
      rw [List.foldl_cons] at ha
      exact ih _ (fun q hq => hl q (List.mem_cons_of_mem _ hq))
        (detectOne_inBounds M cfg rand now range drone p.1 p.2 st bounds
          (hl p (List.mem_cons_self _ _)) hst) a ha
  exact key origItems.enum st
    (fun p hp => horig p.2 (mem_enum_snd origItems 0 p hp)) hst

/-- The detection tick keeps every anomaly position inside the (nonnegative)
sector bounds: existing items are only re-flagged, new false positives are
clamped. -/
theorem detectionTick_inBounds (M : JsMath) (tokenOf : ℚ → String) (cfg : SensorConfig)
    (config : AnomalySettings) (bounds : SectorBounds) (drones : List DroneState)
    (items : List AnomalyInstance) (rand : ℕ → ℚ) (missMap : List (String × ℚ)) (now : ℚ)
    (hw : 0 ≤ bounds.widthMeters) (hh : 0 ≤ bounds.heightMeters)
    (hitems : ∀ a ∈ items, inBounds bounds a.position) :
    ∀ a ∈ (detectionTick M tokenOf cfg config bounds drones items rand missMap now).1,
      inBounds bounds a.position := by
  unfold detectionTick
  split
  · exact hitems
  · dsimp only
    have key : ∀ (ds : List DroneState) (st : DetState),
        (∀ a ∈ st.items, inBounds bounds a.position) →
        ∀ a ∈ (ds.foldl (fun st drone => detectDrone M tokenOf cfg config bounds items rand
            now (max 10 cfg.rangeMeters) drone st) st).items,
          inBounds bounds a.position := by
      intro ds
      induction ds with
      | nil => intro st hst a ha; exact hst a ha
      | cons dr rest ih =>
        intro st hst a ha
        rw [List.foldl_cons] at ha
        exact ih _ (detectDrone_inBounds M tokenOf cfg config bounds items rand now
          (max 10 cfg.rangeMeters) dr st hw hh hitems hst) a ha
    exact key drones ⟨items, [], missMap, 0⟩ hitems


/-- C5 (amended): with nonnegative sector dimensions, every core operation
keeps every drone and anomaly position inside the sector rectangle:
generation and (accepted, nonnegative-dimension) validation place items in
bounds, spawn and drag clamp, waypoint assignment does not move the drone,
the kinematics tick moves to clamped positions only, and the detection tick
preserves item positions and clamps new false positives.  The nonnegativity
proviso is needed: `validateScenario` accepts sectors with negative
dimensions, for which clamping itself produces out-of-bounds positions. -/
theorem c5_core_operations_respect_bounds
    (M : JsMath) (rng : Rng) (params : GeneratorParams) (nowS : String)
    (tokenOf : ℚ → String) (cfg : SensorConfig) (configA : AnomalySettings)
    (bounds : SectorBounds) (thresholds : List ℚ) (buffer : ℚ)
    (hub spawnPos point dragPos : Vec2)
    (dt now : ℚ) (ws : WarningState) (drone : DroneState) (drones : List DroneState)
    (items : List AnomalyInstance) (rand : ℕ → ℚ) (missMap : List (String × ℚ))
    (selected append : Bool) (id callsign : String) (model : DroneModel)
    (payload : ScenarioPayload) (s : MaritimeScenario)
    (hPy : ∀ θ, M.cos θ ^ 2 + M.sin θ ^ 2 = 1)
    (h01 : ∀ st n, 0 ≤ rng st n ∧ rng st n < 1)
    (hw : 0 ≤ bounds.widthMeters) (hh : 0 ≤ bounds.heightMeters)
    (hd : inBounds bounds drone.position)
    (hitems : ∀ a ∈ items, inBounds bounds a.position)
    (hok : validateScenario M rng payload nowS = .ok s)
    (hsw : 0 ≤ s.sector.bounds.widthMeters) (hsh : 0 ≤ s.sector.bounds.heightMeters) :
    (∀ a ∈ (generateSector M rng params nowS).anomalies.items,
      inBounds (generateSector M rng params nowS).sector.bounds a.position) ∧
    (∀ a ∈ s.anomalies.items, inBounds s.sector.bounds a.position) ∧
    inBounds bounds (spawnDrone M buffer id callsign model spawnPos hub bounds now).position ∧
    inBounds bounds (applySetWaypoint bounds selected append point now drone).position ∧
    inBounds bounds (tickDrone M thresholds buffer hub bounds dt now ws drone).1.position ∧
    (∀ a ∈ (detectionTick M tokenOf cfg configA bounds drones items rand missMap now).1,
      inBounds bounds a.position) ∧
    inBounds bounds (applyDronePositionChange bounds dragPos now drone).position := by
  refine ⟨?_, ?_, ?_, ?_, ?_, ?_, ?_⟩
  · intro a ha
    exact (generateSector_anomaly_spec M rng params nowS hPy h01 a ha).1
  · intro a ha
    exact (validateScenario_accepted_items_props M rng payload nowS s hPy h01 hok hsw hsh a ha).1
  · exact clampToBounds_inBounds bounds _ hw hh
  · rw [applySetWaypoint_position]
    exact hd
  · rcases tickDrone_position M thresholds buffer hub bounds dt now ws drone with h | ⟨p, h⟩
    · rw [h]; exact hd
    · rw [h]; exact clampToBounds_inBounds bounds p hw hh
  · exact detectionTick_inBounds M tokenOf cfg configA bounds drones items rand missMap now
      hw hh hitems
  · exact clampToBounds_inBounds bounds dragPos hw hh

/-- C5 (counterexample): on the validator-accepted negative-width sector,
the clamp of a drone drag lands outside the sector bounds. -/
theorem c5_counterexample :
    validateScenario mathConst rngZero payloadNegWidth "T" = .ok c10BadScenario ∧
      ¬ inBounds c10BadScenario.sector.bounds
        (applyDronePositionChange c10BadScenario.sector.bounds ⟨50, 50⟩ 0
          droneLowBattery).position := by
  constructor
  · with_unfolding_all rfl
  · with_unfolding_all decide

/-- Witness for C5's amended theorem at concrete inputs. -/
theorem c5_witness :
    (∀ a ∈ (generateSector mathConst rngZero paramsUnit "T").anomalies.items,
      inBounds (generateSector mathConst rngZero paramsUnit "T").sector.bounds a.position) ∧
    (∀ a ∈ (generateSector mathConst rngZero paramsUnit "T").anomalies.items,
      inBounds (generateSector mathConst rngZero paramsUnit "T").sector.bounds a.position) ∧
    inBounds testBounds
      (spawnDrone mathConst 3 "d" "D" ⟨"m", "M", 10, 30⟩ ⟨1, 1⟩ ⟨0, 0⟩ testBounds 0).position ∧
    inBounds testBounds
      (applySetWaypoint testBounds true false ⟨2, 2⟩ 0 droneLowBattery).position ∧
    inBounds testBounds
      (tickDrone mathConst [20] 3 ⟨0, 0⟩ testBounds 1 0 ⟨[], false⟩ droneLowBattery).1.position ∧
    (∀ a ∈ (detectionTick mathConst (fun _ => "tok") defaultSensorConfig defaultAnomalyConfig
        testBounds [droneLowBattery] [] (fun _ => 0) [] 0).1,
      inBounds testBounds a.position) ∧
    inBounds testBounds
      (applyDronePositionChange testBounds ⟨3, 3⟩ 0 droneLowBattery).position :=
  c5_core_operations_respect_bounds mathConst rngZero paramsUnit "T" (fun _ => "tok")
    defaultSensorConfig defaultAnomalyConfig testBounds [20] 3 ⟨0, 0⟩ ⟨1, 1⟩ ⟨2, 2⟩ ⟨3, 3⟩
    1 0 ⟨[], false⟩ droneLowBattery [droneLowBattery] [] (fun _ => 0) [] true false "d" "D"
    ⟨"m", "M", 10, 30⟩ (payloadOfScenario (generateSector mathConst rngZero paramsUnit "T"))
    (generateSector mathConst rngZero paramsUnit "T") mathConst_pythagoras rngZero_range
    (by with_unfolding_all decide) (by with_unfolding_all decide)
    (by with_unfolding_all decide) (by simp)
    (by with_unfolding_all rfl) (by with_unfolding_all decide) (by with_unfolding_all decide)


/-!
## Frame conditions of the detection tick (C8)
-/


/-- The frame invariant of the detection interval effect, relative to the
items captured at tick start: no existing index is removed, an existing item
is either untouched or (if initially undetected) replaced by its
detected-flagged copy only, appended entries are detected false positives,
and every `detected` event names an initially undetected anomaly. -/
def DetFrameInv (items : List AnomalyInstance) (st : DetState) : Prop :=
  items.length ≤ st.items.length ∧
  (∀ (i : ℕ) (a : AnomalyInstance), items[i]? = some a →
    st.items[i]? = some a ∨
      (a.detected = false ∧ st.items[i]? = some { a with detected := true })) ∧
  (∀ (j : ℕ) (b : AnomalyInstance), items.length ≤ j → st.items[j]? = some b →
    b.anomalyType = .falsePositive ∧ b.detected = true) ∧
  (∀ e ∈ st.events, e.kind = .detected →
    ∃ a ∈ items, e.anomalyId = some a.id ∧ a.detected = false)

theorem detectOne_frame (M : JsMath) (cfg : SensorConfig) (rand : ℕ → ℚ)
    (now range : ℚ) (drone : DroneState) (idx : ℕ) (anomaly : AnomalyInstance)
    (st : DetState) (items : List AnomalyInstance)
    (hidx : items[idx]? = some anomaly)
    (hInv : DetFrameInv items st) :
    DetFrameInv items (detectOne M cfg rand now range drone idx anomaly st) := by
  have hlt : idx < items.length := by
    by_contra hge
    rw [List.getElem?_eq_none (not_lt.mp hge)] at hidx
    exact Option.noConfusion hidx
  obtain ⟨h1, h2, h3, h4⟩ := hInv
  unfold detectOne
  dsimp only
  repeat' split
  all_goals first
  | exact ⟨h1, h2, h3, h4⟩
  | -- the hit branch: set idx to the detected copy, push a `detected` event
    (rename_i hdet
     have hdetF : anomaly.detected = false := by simpa using hdet
     refine ⟨by simpa using h1, ?_, ?_, ?_⟩
     · intro i a hia
       by_cases hij : idx = i
       · subst hij
         rw [hidx] at hia
         obtain rfl : anomaly = a := by injection hia
         right
         refine ⟨hdetF, ?_⟩
         rw [List.getElem?_set_self (lt_of_lt_of_le hlt h1)]
       · rw [List.getElem?_set_ne hij]
         exact h2 i a hia
     · intro j b hj hjb
       have hne : idx ≠ j := by omega
       rw [List.getElem?_set_ne hne] at hjb
       exact h3 j b hj hjb
     · intro e he hk
       rcases List.mem_append.mp he with h | h
       · exact h4 e h hk
       · rw [List.mem_singleton.mp h]
         exact ⟨anomaly, List.getElem?_mem hidx, rfl, hdetF⟩)
  | -- the miss branch: items untouched, push a `false-negative` event
    (refine ⟨h1, h2, h3, ?_⟩
     intro e he hk
     rcases List.mem_append.mp he with h | h
     · exact h4 e h hk
     · rw [List.mem_singleton.mp h] at hk
       exact absurd hk (by simp))

theorem falsePositiveStep_frame (M : JsMath) (tokenOf : ℚ → String) (cfg : SensorConfig)
    (config : AnomalySettings) (bounds : SectorBounds) (rand : ℕ → ℚ)
    (now range : ℚ) (drone : DroneState) (st : DetState) (items : List AnomalyInstance)
    (hInv : DetFrameInv items st) :
    DetFrameInv items
      (falsePositiveStep M tokenOf cfg config bounds rand now range drone st) := by
  obtain ⟨h1, h2, h3, h4⟩ := hInv
  unfold falsePositiveStep
  dsimp only
  split
  · refine ⟨?_, ?_, ?_, ?_⟩
    · rw [List.length_append]
      exact le_trans h1 (Nat.le_add_right _ _)
    · intro i a hia
      have hlt : i < st.items.length := lt_of_lt_of_le (by
        by_contra hge
        rw [List.getElem?_eq_none (not_lt.mp hge)] at hia
        exact Option.noConfusion hia) h1
      rw [List.getElem?_append_left hlt]
      exact h2 i a hia
    · intro j b hj hjb
      by_cases hjl : j < st.items.length
      · rw [List.getElem?_append_left hjl] at hjb
        exact h3 j b hj hjb
      · rw [List.getElem?_append_right (not_lt.mp hjl)] at hjb
        cases hd : j - st.items.length with
        | zero =>
          rw [hd] at hjb
          obtain rfl : _ = b := by injection hjb
          exact ⟨rfl, rfl⟩
        | succ n =>
          rw [hd] at hjb
          simp at hjb
    · intro e he hk
      rcases List.mem_append.mp he with h | h
      · exact h4 e h hk
      · rw [List.mem_singleton.mp h] at hk
        exact absurd hk (by simp)
  · exact ⟨h1, h2, h3, h4⟩

theorem enumFrom_getElem? {α : Type} : ∀ (l : List α) (k : ℕ) (p : ℕ × α),
    p ∈ l.enumFrom k → k ≤ p.1 ∧ l[p.1 - k]? = some p.2 := by
  intro l
  induction l with
  | nil => intro k p h; simp at h
  | cons x xs ih =>
    intro k p h
    rcases List.mem_cons.mp h with h | h
    · rw [h]
      exact ⟨le_refl _, by simp⟩
    · obtain ⟨hk, hget⟩ := ih (k + 1) p h
      refine ⟨le_trans (Nat.le_succ k) hk, ?_⟩
      have hd : p.1 - k = (p.1 - (k + 1)) + 1 := by omega
      rw [hd]
      simpa using hget

theorem detectDrone_frame (M : JsMath) (tokenOf : ℚ → String) (cfg : SensorConfig)
    (config : AnomalySettings) (bounds : SectorBounds) (items : List AnomalyInstance)
    (rand : ℕ → ℚ) (now range : ℚ) (drone : DroneState) (st : DetState)
    (hInv : DetFrameInv items st) :
    DetFrameInv items
      (detectDrone M tokenOf cfg config bounds items rand now range drone st) := by
  unfold detectDrone
  apply falsePositiveStep_frame
  have key : ∀ (l : List (ℕ × AnomalyInstance)) (st : DetState),
      (∀ p ∈ l, items[(p : ℕ × AnomalyInstance).1]? = some p.2) →
      DetFrameInv items st →
      DetFrameInv items (l.foldl (fun acc (p : ℕ × AnomalyInstance) =>
        detectOne M cfg rand now range drone p.1 p.2 acc) st) := by
    intro l
    induction l with
    | nil => intro st _ h; exact h
    | cons p rest ih =>
      intro st hl h
      rw [List.foldl_cons]
      exact ih _ (fun q hq => hl q (List.mem_cons_of_mem _ hq))
        (detectOne_frame M cfg rand now range drone p.1 p.2 st items
          (hl p (List.mem_cons_self _ _)) h)
  apply key items.enum st
  · intro p hp
    have := enumFrom_getElem? items 0 p hp
    simpa using this.2
  · exact hInv

/-- C8: a single detection tick never removes an existing anomaly item and
never changes an existing item's id, type, position, or detection radius; it
only flips the detected flag from false to true, appends only false-positive
instances pre-marked detected, and emits `detected` events only for
anomalies that were undetected at tick start. -/
theorem c8_detection_tick_frame (M : JsMath) (tokenOf : ℚ → String) (cfg : SensorConfig)
    (config : AnomalySettings) (bounds : SectorBounds) (drones : List DroneState)
    (items : List AnomalyInstance) (rand : ℕ → ℚ) (missMap : List (String × ℚ))
    (now : ℚ) :
    items.length ≤
      (detectionTick M tokenOf cfg config bounds drones items rand missMap now).1.length ∧
    (∀ (i : ℕ) (a : AnomalyInstance), items[i]? = some a →
      (detectionTick M tokenOf cfg config bounds drones items rand missMap now).1[i]? =
        some a ∨
      (a.detected = false ∧
        (detectionTick M tokenOf cfg config bounds drones items rand missMap now).1[i]? =
          some { a with detected := true })) ∧
    (∀ (j : ℕ) (b : AnomalyInstance), items.length ≤ j →
      (detectionTick M tokenOf cfg config bounds drones items rand missMap now).1[j]? =
        some b →
      b.anomalyType = .falsePositive ∧ b.detected = true) ∧
    (∀ e ∈ (detectionTick M tokenOf cfg config bounds drones items rand missMap now).2.1,
      e.kind = .detected → ∃ a ∈ items, e.anomalyId = some a.id ∧ a.detected = false) := by
  have base : DetFrameInv items ⟨items, [], missMap, 0⟩ := by
    refine ⟨le_refl _, fun i a h => Or.inl h, ?_, ?_⟩
    · intro j b hj hjb
      rw [List.getElem?_eq_none hj] at hjb
      exact Option.noConfusion hjb
    · intro e he
      exact absurd he (List.not_mem_nil e)
  unfold detectionTick
  split
  · rename_i hemp
    refine ⟨le_refl _, fun i a h => Or.inl h, ?_, ?_⟩
    · intro j b hj hjb
      rw [List.getElem?_eq_none hj] at hjb
      exact Option.noConfusion hjb
    · intro e he
      exact absurd he (List.not_mem_nil e)
  · dsimp only
    have key : ∀ (ds : List DroneState) (st : DetState),
        DetFrameInv items st →
        DetFrameInv items (ds.foldl (fun st drone => detectDrone M tokenOf cfg config bounds
          items rand now (max 10 cfg.rangeMeters) drone st) st) := by
      intro ds
      induction ds with
      | nil => intro st h; exact h
      | cons dr rest ih =>
        intro st h
        rw [List.foldl_cons]
        exact ih _ (detectDrone_frame M tokenOf cfg config bounds items rand now
          (max 10 cfg.rangeMeters) dr st h)
    exact key drones ⟨items, [], missMap, 0⟩ base

/-- Concrete undetected anomaly used by witnesses. -/
def anomalyFixture : AnomalyInstance := ⟨"a1", .personInWater, ⟨120, 0⟩, false, 12, none⟩

/-- Witness for C8 at a concrete input (one drone, one undetected anomaly). -/
theorem c8_witness :
    ((detectionTick mathConst (fun _ => "tok") defaultSensorConfig defaultAnomalyConfig
        testBounds [droneLowBattery] [anomalyFixture] (fun _ => 0) [] 0).1)[0]? =
      some anomalyFixture ∨
    (anomalyFixture.detected = false ∧
      ((detectionTick mathConst (fun _ => "tok") defaultSensorConfig defaultAnomalyConfig
          testBounds [droneLowBattery] [anomalyFixture] (fun _ => 0) [] 0).1)[0]? =
        some { anomalyFixture with detected := true }) :=
  (c8_detection_tick_frame mathConst (fun _ => "tok") defaultSensorConfig
    defaultAnomalyConfig testBounds [droneLowBattery] [anomalyFixture] (fun _ => 0) [] 0).2.1
    0 anomalyFixture rfl


/-!
## The weighted-partition rebalance on the canonical 2:1 setup (C9)

The ten iterations of `rebalanceLoop` are traced through explicit
intermediate site lists `c9W0`–`c9W10` and cell lists `c9Cells0`–`c9Cells9`
(the drones sit on the horizontal center line, where the abstracted
`Math.hypot` is exact: one argument is zero).
-/


/-- 1000 m square sector used by the C9 partition analysis. -/
def c9Bounds : SectorBounds := ⟨⟨0, 0⟩, 1000, 1000⟩

def droneFastC9 : DroneState :=
  { droneLowBattery with
      id := "fast"
      speedKts := 10
      position := ⟨499, 500⟩ }

def droneSlowC9 : DroneState :=
  { droneLowBattery with
      id := "slow"
      speedKts := 5
      position := ⟨501, 500⟩ }

def c9W0 : List Site :=
  [⟨droneFastC9, ⟨(499 : ℚ), (500 : ℚ)⟩⟩, ⟨droneSlowC9, ⟨(501 : ℚ), (500 : ℚ)⟩⟩]

def c9W1 : List Site :=
  [⟨droneFastC9, ⟨(7237 / 20 : ℚ), (500 : ℚ)⟩⟩, ⟨droneSlowC9, ⟨(9763 / 20 : ℚ), (500 : ℚ)⟩⟩]

def c9W2 : List Site :=
  [⟨droneFastC9, ⟨(109331 / 400 : ℚ), (500 : ℚ)⟩⟩, ⟨droneSlowC9, ⟨(255669 / 400 : ℚ), (500 : ℚ)⟩⟩]

def c9W3 : List Site :=
  [⟨droneFastC9, ⟨(5675159 / 24000 : ℚ), (500 : ℚ)⟩⟩, ⟨droneSlowC9, ⟨(15077341 / 24000 : ℚ), (500 : ℚ)⟩⟩]

def c9W4 : List Site :=
  [⟨droneFastC9, ⟨(101658317 / 480000 : ℚ), (500 : ℚ)⟩⟩, ⟨droneSlowC9, ⟨(149725529 / 240000 : ℚ), (500 : ℚ)⟩⟩]

def c9W5 : List Site :=
  [⟨droneFastC9, ⟨(7520660609 / 38400000 : ℚ), (500 : ℚ)⟩⟩, ⟨droneSlowC9, ⟨(23952545641 / 38400000 : ℚ), (500 : ℚ)⟩⟩]

def c9W6 : List Site :=
  [⟨droneFastC9, ⟨(285966603959 / 1536000000 : ℚ), (500 : ℚ)⟩⟩, ⟨droneSlowC9, ⟨(962268821041 / 1536000000 : ℚ), (500 : ℚ)⟩⟩]

def c9W7 : List Site :=
  [⟨droneFastC9, ⟨(38914551191519 / 215040000000 : ℚ), (500 : ℚ)⟩⟩, ⟨droneSlowC9, ⟨(135690759220981 / 215040000000 : ℚ), (500 : ℚ)⟩⟩]

def c9W8 : List Site :=
  [⟨droneFastC9, ⟨(1538810900232619 / 8601600000000 : ℚ), (500 : ℚ)⟩⟩, ⟨droneSlowC9, ⟨(2738093145904003 / 4300800000000 : ℚ), (500 : ℚ)⟩⟩]

def c9W9 : List Site :=
  [⟨droneFastC9, ⟨(52793461462472027 / 294912000000000 : ℚ), (500 : ℚ)⟩⟩, ⟨droneSlowC9, ⟨(189605254298746723 / 294912000000000 : ℚ), (500 : ℚ)⟩⟩]

def c9W10 : List Site :=
  [⟨droneFastC9, ⟨(2130535132645269577 / 11796480000000000 : ℚ), (500 : ℚ)⟩⟩, ⟨droneSlowC9, ⟨(7661535375845142923 / 11796480000000000 : ℚ), (500 : ℚ)⟩⟩]

def c9Cells0 : List VoronoiCell :=
  [⟨"fast", [⟨(0 : ℚ), (0 : ℚ)⟩, ⟨(500 : ℚ), (0 : ℚ)⟩, ⟨(500 : ℚ), (1000 : ℚ)⟩, ⟨(0 : ℚ), (1000 : ℚ)⟩], ⟨(250 : ℚ), (500 : ℚ)⟩⟩,
   ⟨"slow", [⟨(500 : ℚ), (0 : ℚ)⟩, ⟨(1000 : ℚ), (0 : ℚ)⟩, ⟨(1000 : ℚ), (1000 : ℚ)⟩, ⟨(500 : ℚ), (1000 : ℚ)⟩], ⟨(750 : ℚ), (500 : ℚ)⟩⟩]

def c9Cells1 : List VoronoiCell :=
  [⟨"fast", [⟨(0 : ℚ), (0 : ℚ)⟩, ⟨(425 : ℚ), (0 : ℚ)⟩, ⟨(425 : ℚ), (1000 : ℚ)⟩, ⟨(0 : ℚ), (1000 : ℚ)⟩], ⟨(425 / 2 : ℚ), (500 : ℚ)⟩⟩,
   ⟨"slow", [⟨(425 : ℚ), (0 : ℚ)⟩, ⟨(1000 : ℚ), (0 : ℚ)⟩, ⟨(1000 : ℚ), (1000 : ℚ)⟩, ⟨(425 : ℚ), (1000 : ℚ)⟩], ⟨(1425 / 2 : ℚ), (500 : ℚ)⟩⟩]

def c9Cells2 : List VoronoiCell :=
  [⟨"fast", [⟨(0 : ℚ), (0 : ℚ)⟩, ⟨(1825 / 4 : ℚ), (0 : ℚ)⟩, ⟨(1825 / 4 : ℚ), (1000 : ℚ)⟩, ⟨(0 : ℚ), (1000 : ℚ)⟩], ⟨(1825 / 8 : ℚ), (500 : ℚ)⟩⟩,
   ⟨"slow", [⟨(1825 / 4 : ℚ), (0 : ℚ)⟩, ⟨(1000 : ℚ), (0 : ℚ)⟩, ⟨(1000 : ℚ), (1000 : ℚ)⟩, ⟨(1825 / 4 : ℚ), (1000 : ℚ)⟩], ⟨(5825 / 8 : ℚ), (500 : ℚ)⟩⟩]

def c9Cells3 : List VoronoiCell :=
  [⟨"fast", [⟨(0 : ℚ), (0 : ℚ)⟩, ⟨(13835 / 32 : ℚ), (0 : ℚ)⟩, ⟨(13835 / 32 : ℚ), (1000 : ℚ)⟩, ⟨(0 : ℚ), (1000 : ℚ)⟩], ⟨(13835 / 64 : ℚ), (500 : ℚ)⟩⟩,
   ⟨"slow", [⟨(13835 / 32 : ℚ), (0 : ℚ)⟩, ⟨(1000 : ℚ), (0 : ℚ)⟩, ⟨(1000 : ℚ), (1000 : ℚ)⟩, ⟨(13835 / 32 : ℚ), (1000 : ℚ)⟩], ⟨(45835 / 64 : ℚ), (500 : ℚ)⟩⟩]

def c9Cells4 : List VoronoiCell :=
  [⟨"fast", [⟨(0 : ℚ), (0 : ℚ)⟩, ⟨(213925 / 512 : ℚ), (0 : ℚ)⟩, ⟨(213925 / 512 : ℚ), (1000 : ℚ)⟩, ⟨(0 : ℚ), (1000 : ℚ)⟩], ⟨(213925 / 1024 : ℚ), (500 : ℚ)⟩⟩,
   ⟨"slow", [⟨(213925 / 512 : ℚ), (0 : ℚ)⟩, ⟨(1000 : ℚ), (0 : ℚ)⟩, ⟨(1000 : ℚ), (1000 : ℚ)⟩, ⟨(213925 / 512 : ℚ), (1000 : ℚ)⟩], ⟨(725925 / 1024 : ℚ), (500 : ℚ)⟩⟩]

def c9Cells5 : List VoronoiCell :=
  [⟨"fast", [⟨(0 : ℚ), (0 : ℚ)⟩, ⟨(1678571 / 4096 : ℚ), (0 : ℚ)⟩, ⟨(1678571 / 4096 : ℚ), (1000 : ℚ)⟩, ⟨(0 : ℚ), (1000 : ℚ)⟩], ⟨(1678571 / 8192 : ℚ), (500 : ℚ)⟩⟩,
   ⟨"slow", [⟨(1678571 / 4096 : ℚ), (0 : ℚ)⟩, ⟨(1000 : ℚ), (0 : ℚ)⟩, ⟨(1000 : ℚ), (1000 : ℚ)⟩, ⟨(1678571 / 4096 : ℚ), (1000 : ℚ)⟩], ⟨(5774571 / 8192 : ℚ), (500 : ℚ)⟩⟩]

def c9Cells6 : List VoronoiCell :=
  [⟨"fast", [⟨(0 : ℚ), (0 : ℚ)⟩, ⟨(16643139 / 40960 : ℚ), (0 : ℚ)⟩, ⟨(16643139 / 40960 : ℚ), (1000 : ℚ)⟩, ⟨(0 : ℚ), (1000 : ℚ)⟩], ⟨(16643139 / 81920 : ℚ), (500 : ℚ)⟩⟩,
   ⟨"slow", [⟨(16643139 / 40960 : ℚ), (0 : ℚ)⟩, ⟨(1000 : ℚ), (0 : ℚ)⟩, ⟨(1000 : ℚ), (1000 : ℚ)⟩, ⟨(16643139 / 40960 : ℚ), (1000 : ℚ)⟩], ⟨(57603139 / 81920 : ℚ), (500 : ℚ)⟩⟩]

def c9Cells7 : List VoronoiCell :=
  [⟨"fast", [⟨(0 : ℚ), (0 : ℚ)⟩, ⟨(4656141611 / 11468800 : ℚ), (0 : ℚ)⟩, ⟨(4656141611 / 11468800 : ℚ), (1000 : ℚ)⟩, ⟨(0 : ℚ), (1000 : ℚ)⟩], ⟨(4656141611 / 22937600 : ℚ), (500 : ℚ)⟩⟩,
   ⟨"slow", [⟨(4656141611 / 11468800 : ℚ), (0 : ℚ)⟩, ⟨(1000 : ℚ), (0 : ℚ)⟩, ⟨(1000 : ℚ), (1000 : ℚ)⟩, ⟨(4656141611 / 11468800 : ℚ), (1000 : ℚ)⟩], ⟨(16124941611 / 22937600 : ℚ), (500 : ℚ)⟩⟩]

def c9Cells8 : List VoronoiCell :=
  [⟨"fast", [⟨(0 : ℚ), (0 : ℚ)⟩, ⟨(748266367151 / 1835008000 : ℚ), (0 : ℚ)⟩, ⟨(748266367151 / 1835008000 : ℚ), (1000 : ℚ)⟩, ⟨(0 : ℚ), (1000 : ℚ)⟩], ⟨(748266367151 / 3670016000 : ℚ), (500 : ℚ)⟩⟩,
   ⟨"slow", [⟨(748266367151 / 1835008000 : ℚ), (0 : ℚ)⟩, ⟨(1000 : ℚ), (0 : ℚ)⟩, ⟨(1000 : ℚ), (1000 : ℚ)⟩, ⟨(748266367151 / 1835008000 : ℚ), (1000 : ℚ)⟩], ⟨(2583274367151 / 3670016000 : ℚ), (500 : ℚ)⟩⟩]

def c9Cells9 : List VoronoiCell :=
  [⟨"fast", [⟨(0 : ℚ), (0 : ℚ)⟩, ⟨(2585586301453 / 6291456000 : ℚ), (0 : ℚ)⟩, ⟨(2585586301453 / 6291456000 : ℚ), (1000 : ℚ)⟩, ⟨(0 : ℚ), (1000 : ℚ)⟩], ⟨(2585586301453 / 12582912000 : ℚ), (500 : ℚ)⟩⟩,
   ⟨"slow", [⟨(2585586301453 / 6291456000 : ℚ), (0 : ℚ)⟩, ⟨(1000 : ℚ), (0 : ℚ)⟩, ⟨(1000 : ℚ), (1000 : ℚ)⟩, ⟨(2585586301453 / 6291456000 : ℚ), (1000 : ℚ)⟩], ⟨(8877042301453 / 12582912000 : ℚ), (500 : ℚ)⟩⟩]

/-- The target-area function `rebalanceVoronoiAreas` builds for `c9W0`
(weights 10 and 5, so targets 2/3 and 1/3 of the square's area). -/
def c9TF : String → ℚ := fun id =>
  ((((c9W0.zip (c9W0.map (fun s => max 0.1 s.drone.speedKts))).map
      (fun p => (p.1.drone.id,
        c9Bounds.widthMeters * c9Bounds.heightMeters *
          (p.2 / (if (c9W0.map (fun s => max 0.1 s.drone.speedKts)).sum = 0 then 1
            else (c9W0.map (fun s => max 0.1 s.drone.speedKts)).sum))))).find?
      (fun p => p.1 = id)).map (·.2)).getD
    (c9Bounds.widthMeters * c9Bounds.heightMeters / c9W0.length)

theorem c9_build0 : buildCells c9W0 c9Bounds = c9Cells0 := by
  with_unfolding_all rfl

theorem c9_rebstep0 :
    rebalanceStep mathConst c9Bounds ⟨500, 500⟩ c9TF (1000 * 0.2 / (((0 : ℕ) : ℚ) + 1))
      c9Cells0 c9W0 = c9W1 := by
  with_unfolding_all rfl

theorem c9_build1 : buildCells c9W1 c9Bounds = c9Cells1 := by
  with_unfolding_all rfl

theorem c9_rebstep1 :
    rebalanceStep mathConst c9Bounds ⟨500, 500⟩ c9TF (1000 * 0.2 / (((1 : ℕ) : ℚ) + 1))
      c9Cells1 c9W1 = c9W2 := by
  with_unfolding_all rfl

theorem c9_build2 : buildCells c9W2 c9Bounds = c9Cells2 := by
  with_unfolding_all rfl

theorem c9_rebstep2 :
    rebalanceStep mathConst c9Bounds ⟨500, 500⟩ c9TF (1000 * 0.2 / (((2 : ℕ) : ℚ) + 1))
      c9Cells2 c9W2 = c9W3 := by
  with_unfolding_all rfl

theorem c9_build3 : buildCells c9W3 c9Bounds = c9Cells3 := by
  with_unfolding_all rfl

theorem c9_rebstep3 :
    rebalanceStep mathConst c9Bounds ⟨500, 500⟩ c9TF (1000 * 0.2 / (((3 : ℕ) : ℚ) + 1))
      c9Cells3 c9W3 = c9W4 := by
  with_unfolding_all rfl

theorem c9_build4 : buildCells c9W4 c9Bounds = c9Cells4 := by
  with_unfolding_all rfl

theorem c9_rebstep4 :
    rebalanceStep mathConst c9Bounds ⟨500, 500⟩ c9TF (1000 * 0.2 / (((4 : ℕ) : ℚ) + 1))
      c9Cells4 c9W4 = c9W5 := by
  with_unfolding_all rfl

theorem c9_build5 : buildCells c9W5 c9Bounds = c9Cells5 := by
  with_unfolding_all rfl

theorem c9_rebstep5 :
    rebalanceStep mathConst c9Bounds ⟨500, 500⟩ c9TF (1000 * 0.2 / (((5 : ℕ) : ℚ) + 1))
      c9Cells5 c9W5 = c9W6 := by
  with_unfolding_all rfl

theorem c9_build6 : buildCells c9W6 c9Bounds = c9Cells6 := by
  with_unfolding_all rfl

theorem c9_rebstep6 :
    rebalanceStep mathConst c9Bounds ⟨500, 500⟩ c9TF (1000 * 0.2 / (((6 : ℕ) : ℚ) + 1))
      c9Cells6 c9W6 = c9W7 := by
  with_unfolding_all rfl

theorem c9_build7 : buildCells c9W7 c9Bounds = c9Cells7 := by
  with_unfolding_all rfl

theorem c9_rebstep7 :
    rebalanceStep mathConst c9Bounds ⟨500, 500⟩ c9TF (1000 * 0.2 / (((7 : ℕ) : ℚ) + 1))
      c9Cells7 c9W7 = c9W8 := by
  with_unfolding_all rfl

theorem c9_build8 : buildCells c9W8 c9Bounds = c9Cells8 := by
  with_unfolding_all rfl

theorem c9_rebstep8 :
    rebalanceStep mathConst c9Bounds ⟨500, 500⟩ c9TF (1000 * 0.2 / (((8 : ℕ) : ℚ) + 1))
      c9Cells8 c9W8 = c9W9 := by
  with_unfolding_all rfl

theorem c9_build9 : buildCells c9W9 c9Bounds = c9Cells9 := by
  with_unfolding_all rfl

theorem c9_rebstep9 :
    rebalanceStep mathConst c9Bounds ⟨500, 500⟩ c9TF (1000 * 0.2 / (((9 : ℕ) : ℚ) + 1))
      c9Cells9 c9W9 = c9W10 := by
  with_unfolding_all rfl

theorem c9_step0 :
    rebalanceLoop mathConst c9Bounds ⟨500, 500⟩ c9TF 1000 0.15 10 0 c9W0 ([] : List VoronoiCell) =
      rebalanceLoop mathConst c9Bounds ⟨500, 500⟩ c9TF 1000 0.15 9 1 c9W1 c9Cells0 := by
  rw [rebalanceLoop]
  rw [c9_build0]
  rw [if_neg (show ¬ (c9Cells0.length = 0) from by decide)]
  dsimp only
  split
  · exact absurd (by assumption) (by with_unfolding_all decide)
  · rw [c9_rebstep0]

theorem c9_step1 :
    rebalanceLoop mathConst c9Bounds ⟨500, 500⟩ c9TF 1000 0.15 9 1 c9W1 c9Cells0 =
      rebalanceLoop mathConst c9Bounds ⟨500, 500⟩ c9TF 1000 0.15 8 2 c9W2 c9Cells1 := by
  rw [rebalanceLoop]
  rw [c9_build1]
  rw [if_neg (show ¬ (c9Cells1.length = 0) from by decide)]
  dsimp only
  split
  · exact absurd (by assumption) (by with_unfolding_all decide)
  · rw [c9_rebstep1]

theorem c9_step2 :
    rebalanceLoop mathConst c9Bounds ⟨500, 500⟩ c9TF 1000 0.15 8 2 c9W2 c9Cells1 =
      rebalanceLoop mathConst c9Bounds ⟨500, 500⟩ c9TF 1000 0.15 7 3 c9W3 c9Cells2 := by
  rw [rebalanceLoop]
  rw [c9_build2]
  rw [if_neg (show ¬ (c9Cells2.length = 0) from by decide)]
  dsimp only
  split
  · exact absurd (by assumption) (by with_unfolding_all decide)
  · rw [c9_rebstep2]

theorem c9_step3 :
    rebalanceLoop mathConst c9Bounds ⟨500, 500⟩ c9TF 1000 0.15 7 3 c9W3 c9Cells2 =
      rebalanceLoop mathConst c9Bounds ⟨500, 500⟩ c9TF 1000 0.15 6 4 c9W4 c9Cells3 := by
  rw [rebalanceLoop]
  rw [c9_build3]
  rw [if_neg (show ¬ (c9Cells3.length = 0) from by decide)]
  dsimp only
  split
  · exact absurd (by assumption) (by with_unfolding_all decide)
  · rw [c9_rebstep3]

theorem c9_step4 :
    rebalanceLoop mathConst c9Bounds ⟨500, 500⟩ c9TF 1000 0.15 6 4 c9W4 c9Cells3 =
      rebalanceLoop mathConst c9Bounds ⟨500, 500⟩ c9TF 1000 0.15 5 5 c9W5 c9Cells4 := by
  rw [rebalanceLoop]
  rw [c9_build4]
  rw [if_neg (show ¬ (c9Cells4.length = 0) from by decide)]
  dsimp only
  split
  · exact absurd (by assumption) (by with_unfolding_all decide)
  · rw [c9_rebstep4]

theorem c9_step5 :
    rebalanceLoop mathConst c9Bounds ⟨500, 500⟩ c9TF 1000 0.15 5 5 c9W5 c9Cells4 =
      rebalanceLoop mathConst c9Bounds ⟨500, 500⟩ c9TF 1000 0.15 4 6 c9W6 c9Cells5 := by
  rw [rebalanceLoop]
  rw [c9_build5]
  rw [if_neg (show ¬ (c9Cells5.length = 0) from by decide)]
  dsimp only
  split
  · exact absurd (by assumption) (by with_unfolding_all decide)
  · rw [c9_rebstep5]

theorem c9_step6 :
    rebalanceLoop mathConst c9Bounds ⟨500, 500⟩ c9TF 1000 0.15 4 6 c9W6 c9Cells5 =
      rebalanceLoop mathConst c9Bounds ⟨500, 500⟩ c9TF 1000 0.15 3 7 c9W7 c9Cells6 := by
  rw [rebalanceLoop]
  rw [c9_build6]
  rw [if_neg (show ¬ (c9Cells6.length = 0) from by decide)]
  dsimp only
  split
  · exact absurd (by assumption) (by with_unfolding_all decide)
  · rw [c9_rebstep6]

theorem c9_step7 :
    rebalanceLoop mathConst c9Bounds ⟨500, 500⟩ c9TF 1000 0.15 3 7 c9W7 c9Cells6 =
      rebalanceLoop mathConst c9Bounds ⟨500, 500⟩ c9TF 1000 0.15 2 8 c9W8 c9Cells7 := by
  rw [rebalanceLoop]
  rw [c9_build7]
  rw [if_neg (show ¬ (c9Cells7.length = 0) from by decide)]
  dsimp only
  split
  · exact absurd (by assumption) (by with_unfolding_all decide)
  · rw [c9_rebstep7]

theorem c9_step8 :
    rebalanceLoop mathConst c9Bounds ⟨500, 500⟩ c9TF 1000 0.15 2 8 c9W8 c9Cells7 =
      rebalanceLoop mathConst c9Bounds ⟨500, 500⟩ c9TF 1000 0.15 1 9 c9W9 c9Cells8 := by
  rw [rebalanceLoop]
  rw [c9_build8]
  rw [if_neg (show ¬ (c9Cells8.length = 0) from by decide)]
  dsimp only
  split
  · exact absurd (by assumption) (by with_unfolding_all decide)
  · rw [c9_rebstep8]

theorem c9_step9 :
    rebalanceLoop mathConst c9Bounds ⟨500, 500⟩ c9TF 1000 0.15 1 9 c9W9 c9Cells8 =
      rebalanceLoop mathConst c9Bounds ⟨500, 500⟩ c9TF 1000 0.15 0 10 c9W10 c9Cells9 := by
  conv_lhs => rw [rebalanceLoop]
  rw [c9_build9]
  rw [if_neg (show ¬ (c9Cells9.length = 0) from by decide)]
  dsimp only
  split
  · exact absurd (by assumption) (by with_unfolding_all decide)
  · rw [c9_rebstep9]

theorem c9_end :
    rebalanceLoop mathConst c9Bounds ⟨500, 500⟩ c9TF 1000 0.15 0 10 c9W10 c9Cells9 =
      c9Cells9 := by
  rw [rebalanceLoop]
  rw [if_pos (show c9Cells9.length > 0 from by decide)]

theorem c9_start :
    computeVoronoiCells mathConst [droneFastC9, droneSlowC9] c9Bounds [] =
      rebalanceLoop mathConst c9Bounds ⟨500, 500⟩ c9TF 1000 0.15 10 0 c9W0 [] := by
  unfold computeVoronoiCells
  dsimp only
  rw [if_neg (show ¬ (([] : List String).length > 0) from by decide)]
  rw [show spreadCoincident mathConst
      ([droneFastC9, droneSlowC9].map (fun d => Site.mk d (clampToBounds c9Bounds d.position)))
      c9Bounds = c9W0 from by with_unfolding_all rfl]
  rw [if_neg (show ¬ (c9W0.length < 2) from by decide)]
  unfold rebalanceVoronoiAreas
  dsimp only
  rw [show centerOfBounds c9Bounds = (⟨500, 500⟩ : Vec2) from by with_unfolding_all rfl]
  rw [show min c9Bounds.widthMeters c9Bounds.heightMeters = (1000 : ℚ) from by
    with_unfolding_all rfl]
  with_unfolding_all rfl

theorem c9_eval :
    computeVoronoiCells mathConst [droneFastC9, droneSlowC9] c9Bounds [] = c9Cells9 := by
  rw [c9_start, c9_step0, c9_step1, c9_step2, c9_step3, c9_step4, c9_step5, c9_step6,
    c9_step7, c9_step8, c9_step9, c9_end]

/-- C9 (amended/corrected): for two drones with speeds 10 and 5 kts (ratio
2:1) placed centrally in a 1000 m square sector, the rebalance loop never
meets its 15% tolerance: it exhausts all 10 iterations and
`computeVoronoiCells` returns the 10th-iteration partition, whose areas
(about 41.1% and 58.9% of the sector) are far from the 2:1 targets — every
cell's relative deviation exceeds the tolerance, and the faster drone ends up
with the smaller cell, not the larger one. -/
theorem c9_rebalance_exhausts_iterations :
    computeVoronoiCells mathConst [droneFastC9, droneSlowC9] c9Bounds [] = c9Cells9 ∧
    (c9Cells9.map (fun c => (c.droneId, polygonArea c.polygon))) =
      [("fast", 2585586301453 / 6291456), ("slow", 3705869698547 / 6291456)] ∧
    (∀ c ∈ c9Cells9, 0.15 < |polygonArea c.polygon - c9TF c.droneId| / c9TF c.droneId) ∧
    (2585586301453 / 6291456 : ℚ) < 3705869698547 / 6291456 :=
  ⟨c9_eval, by with_unfolding_all rfl, by with_unfolding_all decide, by norm_num⟩

/-- C9 (counterexample): the canonical 2:1 setup refutes the convergence
claim — the returned cells' areas are not within the configured tolerance of
the 2:1 target ratio. -/
theorem c9_counterexample :
    computeVoronoiCells mathConst [droneFastC9, droneSlowC9] c9Bounds [] = c9Cells9 ∧
    ¬ (∀ c ∈ c9Cells9,
        |polygonArea c.polygon - c9TF c.droneId| / c9TF c.droneId ≤ 0.15) :=
  ⟨c9_eval, by with_unfolding_all decide⟩

end Beacon
